import Mathlib

/-!
Shallow embedding of the AT91 iOBC QEMU peripheral models
(`hw/arm/isis_obc/`): the AIC interrupt controller, the generic PDC
register block, the PMC clock controller, the USART receive path and the
IOX transfer server.  Each definition mirrors the corresponding C
function; theorems settle the specification claims about them.
-/

namespace IobcSpec

/-! ## AIC — Advanced Interrupt Controller (`at91-aic.c`, `at91-aic.h`) -/

/-- `AicIrqStackElem` from `at91-aic.h`: one entry of the internal
interrupt service stack. -/
structure AicIrqStackElem where
  pri : Nat
  irq : Nat
  deriving Repr, DecidableEq, Inhabited

/-- `AicState` from `at91-aic.h` (device registers and internal state;
the MMIO/IRQ plumbing objects are omitted).  The `reg_smr`, `reg_svr`
arrays are 32 entries; the service stack has 9 entries (8 + spurious)
and `irq_stack_pos` starts at `-1` (empty). -/
structure AicState where
  reg_smr : List Nat
  reg_svr : List Nat
  reg_ipr : Nat
  reg_imr : Nat
  reg_cisr : Nat
  reg_spu : Nat
  reg_dcr : Nat
  reg_ffsr : Nat
  irq_stack : List AicIrqStackElem
  irq_stack_pos : Int
  line_state : Nat
  deriving Repr, DecidableEq, Inhabited

def DCR_PROT : Nat := 0x01
def DCR_GMSK : Nat := 0x02
def CISR_NIRQ : Nat := 0x01
def CISR_NFIQ : Nat := 0x02
def IRQ_PRIO_SPURIOUS : Nat := 8
def IRQ_NUM_SPURIOUS : Nat := 0xFF

def AIC_IVR : Nat := 0x100
def AIC_IECR : Nat := 0x120
def AIC_IDCR : Nat := 0x124
def AIC_ICCR : Nat := 0x128
def AIC_ISCR : Nat := 0x12C
def AIC_EOICR : Nat := 0x130
def AIC_SPU : Nat := 0x134
def AIC_DCR : Nat := 0x138
def AIC_FFER : Nat := 0x140
def AIC_FFDR : Nat := 0x144

/-- 32-bit register mask: the C registers are `uint32_t`. -/
def mask32 (x : Nat) : Nat := x &&& 0xFFFFFFFF

/-- Bitwise complement of a `uint32_t` value (`~x` in C). -/
def not32 (x : Nat) : Nat := 0xFFFFFFFF ^^^ (x &&& 0xFFFFFFFF)

/-- `aic_irq_get_priority`: low three bits of the line's SMR register. -/
def aic_irq_get_priority (s : AicState) (irq : Nat) : Nat :=
  (s.reg_smr.getD irq 0) &&& 7

/-- `aic_irq_get_type`: source type field of SMR, with internal sources
(lines 1..28) coerced to the high/rising variants. -/
def aic_irq_get_type (s : AicState) (irq : Nat) : Nat :=
  let srctype := ((s.reg_smr.getD irq 0) &&& 0x60) >>> 5
  if 0 < irq ∧ irq < 29 then
    if srctype = 0 then 2
    else if srctype = 1 then 3
    else srctype
  else srctype

/-- `aic_irq_is_edge_triggered`. -/
def aic_irq_is_edge_triggered (s : AicState) (irq : Nat) : Bool :=
  (aic_irq_get_type s irq) &&& 1 ≠ 0

/-- `aic_irq_is_fast`. -/
def aic_irq_is_fast (s : AicState) (irq : Nat) : Bool :=
  (s.reg_ffsr ||| 0x01) &&& (1 <<< irq) ≠ 0

/-- The pending mask computed in `aic_irq_get_highest_pending`:
`reg_ipr & reg_imr & ~reg_ffsr`. -/
def aicPendingMask (s : AicState) : Nat :=
  s.reg_ipr &&& s.reg_imr &&& not32 s.reg_ffsr

/-- The loop body of `aic_irq_get_highest_pending`, folded over the
candidate line numbers in order: the accumulator `(h_irq, h_pri)` is
replaced whenever the line is pending and has strictly greater
priority. -/
def aic_hp_fold (s : AicState) (pending : Nat) :
    List Nat → Int × Int → Int × Int
  | [], h => h
  | c :: rest, h =>
      let c_pri : Int := (aic_irq_get_priority s c : Int)
      let h' := if pending &&& (1 <<< c) ≠ 0 ∧ c_pri > h.2
                then ((c : Int), c_pri) else h
      aic_hp_fold s pending rest h'

/-- `aic_irq_get_highest_pending`: scan lines 1..31 (FIQ line 0 is
deliberately skipped), returning `-1` when nothing is pending. -/
def aic_irq_get_highest_pending (s : AicState) : Int :=
  (aic_hp_fold s (aicPendingMask s) (List.range' 1 31) (-1, -1)).1

/-- A line is selectable by `aic_irq_get_highest_pending` when its bit
is set in the pending mask (pending ∧ enabled ∧ ¬fast-forced). -/
def aicSelectable (s : AicState) (i : Nat) : Prop :=
  (aicPendingMask s) &&& (1 <<< i) ≠ 0

instance (s : AicState) (i : Nat) : Decidable (aicSelectable s i) := by
  unfold aicSelectable; infer_instance

/-- `aic_irq_stack_push`: aborts (`none`) when the stack position is
already at 8; otherwise increments the position and performs the two
field assignments exactly as the C code does (both to the `irq` field —
the second assignment stores `pri` into `irq`, and the `pri` field of
the new entry is never written). -/
def aic_irq_stack_push (s : AicState) (irq pri : Nat) : Option AicState :=
  if s.irq_stack_pos ≥ 8 then
    none
  else
    let pos := s.irq_stack_pos + 1
    let st := s.irq_stack
    let st := st.set pos.toNat { st.getD pos.toNat default with irq := irq }
    let st := st.set pos.toNat { st.getD pos.toNat default with irq := pri }
    some { s with irq_stack_pos := pos, irq_stack := st }

/-- `aic_irq_stack_pop`: decrement the position when the stack is
non-empty, otherwise do nothing. -/
def aic_irq_stack_pop (s : AicState) : AicState :=
  if s.irq_stack_pos ≥ 0 then
    { s with irq_stack_pos := s.irq_stack_pos - 1 }
  else s

/-- `aic_irq_stack_top`: `none` when the stack is empty. -/
def aic_irq_stack_top (s : AicState) : Option AicIrqStackElem :=
  if s.irq_stack_pos < 0 then none
  else some (s.irq_stack.getD s.irq_stack_pos.toNat default)

/-- `aic_core_irq_update`: recompute `reg_cisr` (the nIRQ/nFIQ line
assignments have no further state effect). -/
def aic_core_irq_update (s : AicState) : AicState :=
  let current := aic_irq_stack_top s
  let irq_pending := s.reg_ipr &&& s.reg_imr
  let irq_fast := s.reg_ffsr ||| 1
  if s.reg_dcr &&& DCR_GMSK ≠ 0 then
    { s with reg_cisr := 0 }
  else
    let nfiq : Bool := irq_pending &&& irq_fast != 0
    let nirq0 : Bool := irq_pending &&& not32 irq_fast != 0
    let nirq : Bool :=
      if nirq0 then
        match current with
        | some cur =>
            let irq := aic_irq_get_highest_pending s
            decide (aic_irq_get_priority s irq.toNat > cur.pri)
        | none => true
      else false
    { s with reg_cisr := (if nirq then CISR_NIRQ else 0) |||
                         (if nfiq then CISR_NFIQ else 0) }

/-- The `AIC_IVR` case of `aic_mmio_read`: returns the read value and
the new state, or `none` when the stack push aborts. -/
def aic_read_ivr (s : AicState) : Option (Nat × AicState) :=
  let irq := aic_irq_get_highest_pending s
  let step : Option AicState :=
    if s.reg_dcr &&& DCR_PROT = 0 then
      (if irq < 0 then
        aic_irq_stack_push s IRQ_NUM_SPURIOUS IRQ_PRIO_SPURIOUS
      else
        (aic_irq_stack_push s irq.toNat (aic_irq_get_priority s irq.toNat)).map
          (fun s1 =>
            if aic_irq_is_edge_triggered s1 irq.toNat ∧
               ¬ aic_irq_is_fast s1 irq.toNat then
              { s1 with reg_ipr := s1.reg_ipr &&& not32 (1 <<< irq.toNat) }
            else s1)).map aic_core_irq_update
    else some s
  step.map (fun s1 => (if irq < 0 then s1.reg_spu else s1.reg_svr.getD irq.toNat 0, s1))

/-- The filtering loop of the `AIC_ICCR`/`AIC_ISCR` cases of
`aic_mmio_write`: clear the bits of all level-triggered lines from the
written value. -/
def aic_filter_edge (s : AicState) (value : Nat) : Nat :=
  (List.range 32).foldl
    (fun v irq => if ¬ aic_irq_is_edge_triggered s irq then
                    v &&& not32 (1 <<< irq)
                  else v) value

/-- `aic_mmio_write` (switch on the offset; the `SMR`/`SVR` ranges and
the default-abort case are included; `none` models `abort()`).  The
`AIC_ISCR` case has no `break` in the source and therefore falls
through into the `AIC_EOICR` stack pop.  Every successful write ends
with `aic_core_irq_update`. -/
def aic_mmio_write (s : AicState) (offset value : Nat) : Option AicState :=
  let body : Option AicState :=
    if 0x000 ≤ offset ∧ offset ≤ 0x07C then
      some { s with reg_smr := s.reg_smr.set ((offset - 0x000) / 4) (mask32 value) }
    else if 0x080 ≤ offset ∧ offset ≤ 0x0FC then
      some { s with reg_svr := s.reg_svr.set ((offset - 0x080) / 4) (mask32 value) }
    else if offset = AIC_IVR then
      if s.reg_dcr &&& DCR_PROT ≠ 0 then
        let irq := aic_irq_get_highest_pending s
        if irq < 0 then
          aic_irq_stack_push s IRQ_NUM_SPURIOUS IRQ_PRIO_SPURIOUS
        else
          (aic_irq_stack_push s irq.toNat (aic_irq_get_priority s irq.toNat)).map
            (fun s1 =>
              if aic_irq_is_edge_triggered s1 irq.toNat ∧
                 ¬ aic_irq_is_fast s1 irq.toNat then
                { s1 with reg_ipr := s1.reg_ipr &&& not32 (1 <<< irq.toNat) }
              else s1)
      else some s
    else if offset = AIC_IECR then
      some { s with reg_imr := s.reg_imr ||| mask32 value }
    else if offset = AIC_IDCR then
      some { s with reg_imr := s.reg_imr &&& not32 value }
    else if offset = AIC_ICCR then
      some { s with reg_ipr := s.reg_ipr &&& not32 (aic_filter_edge s (mask32 value)) }
    else if offset = AIC_ISCR then
      -- missing `break` in the source: after setting the pending bits,
      -- control falls through into the AIC_EOICR case and pops the stack
      some (aic_irq_stack_pop
        { s with reg_ipr := s.reg_ipr ||| aic_filter_edge s (mask32 value) })
    else if offset = AIC_EOICR then
      some (aic_irq_stack_pop s)
    else if offset = AIC_SPU then
      some { s with reg_spu := mask32 value }
    else if offset = AIC_DCR then
      some { s with reg_dcr := mask32 value }
    else if offset = AIC_FFER then
      some { s with reg_ffsr := s.reg_ffsr ||| mask32 value }
    else if offset = AIC_FFDR then
      some { s with reg_ffsr := s.reg_ffsr &&& not32 value }
    else none
  body.map aic_core_irq_update

/-! ### Characterisation of `aic_irq_get_highest_pending` -/

/-- Invariant of the selection loop: folding over a strictly increasing
list of line numbers either leaves the accumulator untouched (and no
listed line is pending with higher priority), or returns a pending line
of maximal priority, lowest index first among equals. -/
theorem aic_hp_fold_spec (s : AicState) (pending : Nat) :
    ∀ (idxs : List Nat), idxs.Pairwise (· < ·) → ∀ (acc : Int × Int),
    (aic_hp_fold s pending idxs acc = acc ∧
      ∀ j ∈ idxs, pending &&& (1 <<< j) ≠ 0 →
        ¬ ((aic_irq_get_priority s j : Int) > acc.2)) ∨
    (∃ c ∈ idxs, pending &&& (1 <<< c) ≠ 0 ∧
      aic_hp_fold s pending idxs acc =
        ((c : Int), (aic_irq_get_priority s c : Int)) ∧
      (aic_irq_get_priority s c : Int) > acc.2 ∧
      ∀ j ∈ idxs, pending &&& (1 <<< j) ≠ 0 →
        (aic_irq_get_priority s j < aic_irq_get_priority s c ∨
         (aic_irq_get_priority s j = aic_irq_get_priority s c ∧ c ≤ j))) := by
  intro idxs
  induction idxs with
  | nil =>
      intro _ acc
      exact Or.inl ⟨rfl, by simp⟩
  | cons c rest ih =>
      intro hpw acc
      rw [List.pairwise_cons] at hpw
      obtain ⟨hlt, hpw'⟩ := hpw
      by_cases hcond : pending &&& (1 <<< c) ≠ 0 ∧
          (aic_irq_get_priority s c : Int) > acc.2
      · -- accumulator replaced by (c, pri c)
        have hstep : aic_hp_fold s pending (c :: rest) acc =
            aic_hp_fold s pending rest
              ((c : Int), (aic_irq_get_priority s c : Int)) := by
          simp [aic_hp_fold, if_pos hcond]
        rcases ih hpw' ((c : Int), (aic_irq_get_priority s c : Int)) with
          ⟨heq, hmax⟩ | ⟨c', hc'mem, hc'cand, heq, hgt, hmax⟩
        · refine Or.inr ⟨c, List.mem_cons_self c rest, hcond.1, ?_, hcond.2, ?_⟩
          · rw [hstep, heq]
          · intro j hj hjcand
            rcases List.mem_cons.mp hj with rfl | hj'
            · exact Or.inr ⟨rfl, le_refl _⟩
            · have := hmax j hj' hjcand
              simp only [not_lt] at this
              rcases lt_or_eq_of_le (Int.ofNat_le.mp this) with h | h
              · exact Or.inl h
              · exact Or.inr ⟨h, le_of_lt (hlt j hj')⟩
        · refine Or.inr ⟨c', List.mem_cons_of_mem c hc'mem, hc'cand, ?_,
            lt_trans hcond.2 hgt, ?_⟩
          · rw [hstep, heq]
          · intro j hj hjcand
            rcases List.mem_cons.mp hj with rfl | hj'
            · exact Or.inl (Int.ofNat_lt.mp hgt)
            · exact hmax j hj' hjcand
      · -- accumulator untouched by line c
        have hstep : aic_hp_fold s pending (c :: rest) acc =
            aic_hp_fold s pending rest acc := by
          simp [aic_hp_fold, if_neg hcond]
        rcases ih hpw' acc with
          ⟨heq, hmax⟩ | ⟨c', hc'mem, hc'cand, heq, hgt, hmax⟩
        · refine Or.inl ⟨by rw [hstep, heq], ?_⟩
          intro j hj hjcand
          rcases List.mem_cons.mp hj with rfl | hj'
          · intro hgt'; exact hcond ⟨hjcand, hgt'⟩
          · exact hmax j hj' hjcand
        · refine Or.inr ⟨c', List.mem_cons_of_mem c hc'mem, hc'cand, ?_, hgt, ?_⟩
          · rw [hstep, heq]
          · intro j hj hjcand
            rcases List.mem_cons.mp hj with rfl | hj'
            · left
              have hle : (aic_irq_get_priority s j : Int) ≤ acc.2 := by
                by_contra hx
                exact hcond ⟨hjcand, lt_of_not_le hx⟩
              exact Int.ofNat_lt.mp (lt_of_le_of_lt hle hgt)
            · exact hmax j hj' hjcand

/-- C1: the interrupt selected when IVR is read is computed over lines
1..31 by filtering on pending ∧ enabled ∧ ¬fast-forced
(`aicSelectable`), choosing the line of maximal priority with the
lowest line index winning among equals; in particular, when exactly two
lines are pending and their priorities satisfy `p₁ > p₂`, the line with
priority `p₁` is selected. -/
theorem aic_ivr_selects_highest_priority (s : AicState) :
    (∀ i : Nat, aic_irq_get_highest_pending s = (i : Int) →
       1 ≤ i ∧ i < 32 ∧ aicSelectable s i ∧
       ∀ j : Nat, 1 ≤ j → j < 32 → aicSelectable s j →
         aic_irq_get_priority s j < aic_irq_get_priority s i ∨
         (aic_irq_get_priority s j = aic_irq_get_priority s i ∧ i ≤ j)) ∧
    (aic_irq_get_highest_pending s = -1 →
       ∀ j : Nat, 1 ≤ j → j < 32 → ¬ aicSelectable s j) ∧
    (∀ i j : Nat, 1 ≤ i → i < 32 → 1 ≤ j → j < 32 →
       aicSelectable s i → aicSelectable s j →
       aic_irq_get_priority s j < aic_irq_get_priority s i →
       (∀ l : Nat, 1 ≤ l → l < 32 → aicSelectable s l → l = i ∨ l = j) →
       aic_irq_get_highest_pending s = (i : Int)) := by
  have hmem : ∀ m : Nat, m ∈ List.range' 1 31 ↔ 1 ≤ m ∧ m < 32 := by
    intro m; exact List.mem_range'_1
  rcases aic_hp_fold_spec s (aicPendingMask s) (List.range' 1 31)
      (List.pairwise_lt_range' 1 31) (-1, -1) with
    ⟨heq, hmax⟩ | ⟨c, hcmem, hccand, heq, _hgt, hmax⟩
  · have hres : aic_irq_get_highest_pending s = -1 := by
      unfold aic_irq_get_highest_pending
      rw [heq]
    have hnone : ∀ j : Nat, 1 ≤ j → j < 32 → ¬ aicSelectable s j := by
      intro j hj1 hj2 hjc
      exact hmax j ((hmem j).mpr ⟨hj1, hj2⟩) hjc
        (show (-1 : Int) < _ from
          lt_of_lt_of_le (by norm_num) (Int.natCast_nonneg _))
    refine ⟨?_, fun _ => hnone, ?_⟩
    · intro i hi
      rw [hres] at hi
      omega
    · intro i j hi1 hi2 _ _ hic _ _ _
      exact absurd hic (hnone i hi1 hi2)
  · have hres : aic_irq_get_highest_pending s = (c : Int) := by
      unfold aic_irq_get_highest_pending
      rw [heq]
    obtain ⟨hc1, hc2⟩ := (hmem c).mp hcmem
    refine ⟨?_, ?_, ?_⟩
    · intro i hi
      rw [hres] at hi
      have hci : c = i := by exact_mod_cast hi
      subst hci
      exact ⟨hc1, hc2, hccand,
        fun j hj1 hj2 hjc => hmax j ((hmem j).mpr ⟨hj1, hj2⟩) hjc⟩
    · intro habs
      rw [hres] at habs
      omega
    · intro i j hi1 hi2 hj1 hj2 hic hjc hpri honly
      rcases honly c hc1 hc2 hccand with rfl | rfl
      · exact hres
      · rcases hmax i ((hmem i).mpr ⟨hi1, hi2⟩) hic with h | ⟨h, _⟩
        · omega
        · omega

/-- AIC test state for the C1 witness: lines 3 (priority 2) and 5
(priority 1) pending and enabled. -/
def aicC1State : AicState :=
  { reg_smr := ((List.replicate 32 0).set 3 2).set 5 1
    reg_svr := List.replicate 32 0
    reg_ipr := 0x28
    reg_imr := 0x28
    reg_cisr := 0
    reg_spu := 0
    reg_dcr := 0
    reg_ffsr := 0
    irq_stack := List.replicate 9 default
    irq_stack_pos := -1
    line_state := 0 }

/-- Witness for C1: on a state with lines 3 (priority 2) and 5
(priority 1) pending, the selection returns line 3 and the
characterisation applies. -/
theorem aic_ivr_selects_highest_priority_witness :
    aic_irq_get_highest_pending aicC1State = ((3 : Nat) : Int) ∧
    (1 ≤ 3 ∧ 3 < 32 ∧ aicSelectable aicC1State 3 ∧
     ∀ j : Nat, 1 ≤ j → j < 32 → aicSelectable aicC1State j →
       aic_irq_get_priority aicC1State j < aic_irq_get_priority aicC1State 3 ∨
       (aic_irq_get_priority aicC1State j = aic_irq_get_priority aicC1State 3 ∧
        3 ≤ j)) :=
  ⟨by decide, (aic_ivr_selects_highest_priority aicC1State).1 3 (by decide)⟩

/-- AIC state for the C4 evaluation: line 1 pending and enabled with
priority 5, protect mode off, service stack empty, `SPU = 0x55AA`. -/
def aicC4State : AicState :=
  { reg_smr := (List.replicate 32 0).set 1 5
    reg_svr := (List.replicate 32 0).set 1 0xCAFE
    reg_ipr := 2
    reg_imr := 2
    reg_cisr := 0
    reg_spu := 0x55AA
    reg_dcr := 0
    reg_ffsr := 0
    irq_stack := List.replicate 9 default
    irq_stack_pos := -1
    line_state := 0 }

/-- `aicC4State` with nothing pending (spurious-interrupt case). -/
def aicC4StateSpurious : AicState := { aicC4State with reg_ipr := 0 }

/-- `aicC4State` with the stack position already at 8 (overflow). -/
def aicC4StateFull : AicState := { aicC4State with irq_stack_pos := 8 }

/-- C4 evaluation: reading IVR on `aicC4State` (line 1 pending at
priority 5) leaves a top-of-stack entry whose `irq` field holds the
priority 5 and whose `pri` field is untouched (0), instead of the pair
`⟨pri := 5, irq := 1⟩` the claim requires — the second assignment in
`aic_irq_stack_push` stores `pri` into the `irq` field.  The
spurious-interrupt read returns SPU and pushes `⟨pri := 0, irq := 8⟩`
rather than an entry with priority field 8, and a read with the stack
position at 8 aborts. -/
theorem aic_ivr_push_stores_priority_into_irq_field :
    ((aic_read_ivr aicC4State).map (fun p => (p.1, aic_irq_stack_top p.2)) =
        some (0xCAFE, some ⟨0, 5⟩) ∧
      (⟨0, 5⟩ : AicIrqStackElem) ≠ ⟨5, 1⟩) ∧
    ((aic_read_ivr aicC4StateSpurious).map
        (fun p => (p.1, aic_irq_stack_top p.2)) =
        some (0x55AA, some ⟨0, 8⟩) ∧
      (0 : Nat) ≠ IRQ_PRIO_SPURIOUS) ∧
    aic_read_ivr aicC4StateFull = none := by decide

/-- `aic_core_irq_update` only rewrites `reg_cisr`. -/
theorem aic_core_irq_update_frame (s : AicState) :
    (aic_core_irq_update s).irq_stack_pos = s.irq_stack_pos ∧
    (aic_core_irq_update s).irq_stack = s.irq_stack ∧
    (aic_core_irq_update s).reg_ipr = s.reg_ipr := by
  unfold aic_core_irq_update
  split <;> exact ⟨rfl, rfl, rfl⟩

/-- `aic_irq_stack_pop` only rewrites the stack position. -/
theorem aic_irq_stack_pop_frame (s : AicState) :
    (aic_irq_stack_pop s).irq_stack = s.irq_stack ∧
    (aic_irq_stack_pop s).reg_ipr = s.reg_ipr ∧
    (aic_irq_stack_pop s).irq_stack_pos =
      (if s.irq_stack_pos ≥ 0 then s.irq_stack_pos - 1 else s.irq_stack_pos) := by
  unfold aic_irq_stack_pop
  split <;> simp_all

/-- Reduction of the `AIC_ISCR` write case. -/
theorem aic_mmio_write_iscr_eq (s : AicState) (v : Nat) :
    aic_mmio_write s AIC_ISCR v =
      some (aic_core_irq_update (aic_irq_stack_pop
        { s with reg_ipr := s.reg_ipr ||| aic_filter_edge s (mask32 v) })) := by
  rfl

/-- Reduction of the `AIC_EOICR` write case. -/
theorem aic_mmio_write_eoicr_eq (s : AicState) (v : Nat) :
    aic_mmio_write s AIC_EOICR v =
      some (aic_core_irq_update (aic_irq_stack_pop s)) := by
  rfl

/-- C10: a write to `AIC_ISCR`, besides setting the pending bits of the
written edge-triggered lines, has exactly the stack effect of a write
to `AIC_EOICR`: it pops the top entry of the interrupt service stack
(the case falls through in the source), so a non-empty stack does not
stay unchanged. -/
theorem aic_iscr_write_pops_stack (s : AicState) (v : Nat) :
    (aic_mmio_write s AIC_ISCR v).map AicState.irq_stack_pos =
      (aic_mmio_write s AIC_EOICR 0).map AicState.irq_stack_pos ∧
    (aic_mmio_write s AIC_ISCR v).map AicState.irq_stack =
      (aic_mmio_write s AIC_EOICR 0).map AicState.irq_stack ∧
    (aic_mmio_write s AIC_ISCR v).map AicState.reg_ipr =
      some (s.reg_ipr ||| aic_filter_edge s (mask32 v)) ∧
    (0 ≤ s.irq_stack_pos →
      (aic_mmio_write s AIC_ISCR v).map AicState.irq_stack_pos =
        some (s.irq_stack_pos - 1)) := by
  rw [aic_mmio_write_iscr_eq, aic_mmio_write_eoicr_eq]
  simp only [Option.map_some']
  refine ⟨?_, ?_, ?_, ?_⟩
  · rw [(aic_core_irq_update_frame _).1, (aic_core_irq_update_frame _).1,
      (aic_irq_stack_pop_frame _).2.2, (aic_irq_stack_pop_frame _).2.2]
  · rw [(aic_core_irq_update_frame _).2.1, (aic_core_irq_update_frame _).2.1,
      (aic_irq_stack_pop_frame _).1, (aic_irq_stack_pop_frame _).1]
  · rw [(aic_core_irq_update_frame _).2.2, (aic_irq_stack_pop_frame _).2.1]
  · intro hpos
    rw [(aic_core_irq_update_frame _).1, (aic_irq_stack_pop_frame _).2.2]
    simp only [Option.some_inj]
    rw [if_pos]
    exact hpos

/-- Witness for C10: on a state with one stacked interrupt, an ISCR
write drops the stack position from 0 to -1. -/
theorem aic_iscr_write_pops_stack_witness :
    (0 : Int) ≤ ({ aicC4State with irq_stack_pos := 0 } : AicState).irq_stack_pos ∧
    (aic_mmio_write { aicC4State with irq_stack_pos := 0 } AIC_ISCR 4).map
        AicState.irq_stack_pos =
      some (({ aicC4State with irq_stack_pos := 0 } : AicState).irq_stack_pos - 1) :=
  ⟨by decide,
   (aic_iscr_write_pops_stack { aicC4State with irq_stack_pos := 0 } 4).2.2.2
     (by decide)⟩

/-! ## PDC — generic peripheral DMA controller block (`at91-pdc.h`) -/

/-- 16-bit counter mask: the PDC counter registers are `uint16_t`. -/
def mask16 (x : Nat) : Nat := x &&& 0xFFFF

def PDC_RPR : Nat := 0x100
def PDC_RCR : Nat := 0x104
def PDC_TPR : Nat := 0x108
def PDC_TCR : Nat := 0x10C
def PDC_RNPR : Nat := 0x110
def PDC_RNCR : Nat := 0x114
def PDC_TNPR : Nat := 0x118
def PDC_TNCR : Nat := 0x11C
def PDC_PTCR : Nat := 0x120
def PDC_PTSR : Nat := 0x124

def PTCR_RXTEN : Nat := 1
def PTCR_RXTDIS : Nat := 2
def PTCR_TXTEN : Nat := 0x100
def PTCR_TXTDIS : Nat := 0x200
def PTSR_RXTEN : Nat := 1
def PTSR_TXTEN : Nat := 0x100

/-- `At91Pdc` from `at91-pdc.h`: the PDC register block. -/
structure At91Pdc where
  reg_ptsr : Nat
  reg_rpr : Nat
  reg_rnpr : Nat
  reg_tpr : Nat
  reg_tnpr : Nat
  reg_rcr : Nat
  reg_rncr : Nat
  reg_tcr : Nat
  reg_tncr : Nat
  deriving Repr, DecidableEq, Inhabited

/-- `enum at91_pdc_action`. -/
inductive PdcAction where
  | none | state | start_rx | stop_rx | start_tx | stop_tx
  deriving Repr, DecidableEq, Inhabited

/-- `at91_pdc_set_register` (`none` models the `abort()` default case).
The counter registers are `uint16_t`, so stored values are truncated,
while the returned action tests the untruncated 32-bit value. -/
def at91_pdc_set_register (pdc : At91Pdc) (offset value0 : Nat) :
    Option (At91Pdc × PdcAction) :=
  let value := mask32 value0
  if offset = PDC_RPR then
    some ({ pdc with reg_rpr := value }, .none)
  else if offset = PDC_RCR then
    let pdc := { pdc with reg_rcr := mask16 value }
    if pdc.reg_ptsr &&& PTSR_RXTEN ≠ 0 then
      some (pdc, if value ≠ 0 then .start_rx else .stop_rx)
    else
      some (pdc, .none)
  else if offset = PDC_TPR then
    some ({ pdc with reg_tpr := value }, .none)
  else if offset = PDC_TCR then
    let pdc := { pdc with reg_tcr := mask16 value }
    if pdc.reg_ptsr &&& PTSR_TXTEN ≠ 0 then
      some (pdc, if value ≠ 0 then .start_tx else .stop_tx)
    else
      some (pdc, .none)
  else if offset = PDC_RNPR then
    some ({ pdc with reg_rnpr := value }, .none)
  else if offset = PDC_RNCR then
    some ({ pdc with reg_rncr := mask16 value }, .none)
  else if offset = PDC_TNPR then
    some ({ pdc with reg_tnpr := value }, .none)
  else if offset = PDC_TNCR then
    some ({ pdc with reg_tncr := mask16 value }, .none)
  else if offset = PDC_PTCR then
    let p := pdc.reg_ptsr
    let p := if value &&& PTCR_RXTEN ≠ 0 ∧ value &&& PTCR_RXTDIS = 0 then
               p ||| PTSR_RXTEN else p
    let p := if value &&& PTCR_RXTDIS ≠ 0 then p &&& not32 PTSR_RXTEN else p
    let p := if value &&& PTCR_TXTEN ≠ 0 ∧ value &&& PTCR_TXTDIS = 0 then
               p ||| PTSR_TXTEN else p
    let p := if value &&& PTCR_TXTDIS ≠ 0 then p &&& not32 PTSR_TXTEN else p
    some ({ pdc with reg_ptsr := p }, .state)
  else
    none

/-- The status-flag masks of `At91PdcOps` (callbacks are dispatched by
the caller from the returned action and are not part of the generic
block). -/
structure At91PdcFlags where
  flag_endrx : Nat
  flag_endtx : Nat
  flag_rxbuff : Nat
  flag_txbufe : Nat
  deriving Repr, DecidableEq, Inhabited

/-- Status-register update performed by `at91_pdc_generic_set_register`
for the `PDC_RCR`/`PDC_RNCR` cases (operating on the already-updated
`pdc1`). -/
def pdc_rx_flag_update (pdc1 : At91Pdc) (flags : At91PdcFlags)
    (sr value0 : Nat) : Nat :=
  let value := mask32 value0
  let sr := if value ≠ 0 then
              (sr &&& not32 flags.flag_endrx) &&& not32 flags.flag_rxbuff
            else sr
  if pdc1.reg_ptsr &&& PTSR_RXTEN ≠ 0 ∧ pdc1.reg_rcr = 0 then
    let sr := sr ||| flags.flag_endrx
    if pdc1.reg_rncr = 0 then sr ||| flags.flag_rxbuff else sr
  else sr

/-- Status-register update performed by `at91_pdc_generic_set_register`
for the `PDC_TCR`/`PDC_TNCR` cases. -/
def pdc_tx_flag_update (pdc1 : At91Pdc) (flags : At91PdcFlags)
    (sr value0 : Nat) : Nat :=
  let value := mask32 value0
  let sr := if value ≠ 0 then
              (sr &&& not32 flags.flag_endtx) &&& not32 flags.flag_txbufe
            else sr
  if pdc1.reg_ptsr &&& PTSR_TXTEN ≠ 0 ∧ pdc1.reg_tcr = 0 then
    let sr := sr ||| flags.flag_endtx
    if pdc1.reg_tncr = 0 then sr ||| flags.flag_txbufe else sr
  else sr

/-- `at91_pdc_generic_set_register`: performs the register write, then
updates the host peripheral's status register `sr` for the counter
registers, and reports the DMA action to dispatch (the callbacks
themselves are caller state and dispatched by the caller). -/
def at91_pdc_generic_set_register (pdc : At91Pdc) (flags : At91PdcFlags)
    (sr : Nat) (offset value0 : Nat) : Option (At91Pdc × Nat × PdcAction) :=
  match at91_pdc_set_register pdc offset value0 with
  | Option.none => Option.none
  | some (pdc1, action) =>
      let sr1 :=
        if offset = PDC_RCR ∨ offset = PDC_RNCR then
          pdc_rx_flag_update pdc1 flags sr value0
        else if offset = PDC_TCR ∨ offset = PDC_TNCR then
          pdc_tx_flag_update pdc1 flags sr value0
        else sr
      some (pdc1, sr1, action)

/-! ### Bit-level helper lemmas -/

/-- Bits 0..31 of `not32 x` are the complement of those of `x`. -/
theorem testBit_not32 (x : Nat) {i : Nat} (hi : i < 32) :
    (not32 x).testBit i = ! x.testBit i := by
  unfold not32
  have hmask : (0xFFFFFFFF : Nat) = 2 ^ 32 - 1 := by norm_num
  rw [Nat.testBit_xor, Nat.testBit_and, hmask, Nat.testBit_two_pow_sub_one]
  simp [hi]

/-- Clearing bit `k` clears bit `k`. -/
theorem testBit_and_not32_self (x : Nat) {k : Nat} (hk : k < 32) :
    (x &&& not32 (2 ^ k)).testBit k = false := by
  rw [Nat.testBit_and, testBit_not32 _ hk, Nat.testBit_two_pow_self]
  simp

/-- Clearing bit `k` leaves any other bit below 32 alone. -/
theorem testBit_and_not32_ne (x : Nat) {k i : Nat} (hi : i < 32)
    (hne : k ≠ i) : (x &&& not32 (2 ^ k)).testBit i = x.testBit i := by
  rw [Nat.testBit_and, testBit_not32 _ hi, Nat.testBit_two_pow_of_ne hne]
  simp

/-- Characterisation of the RX status-flag update: after the write,
ENDRX is set iff (RXTEN ∧ RCR = 0) holds on the updated PDC block or
the bit was set before and the written value was zero; RXBUFF likewise
with the additional RNCR = 0 condition. -/
theorem pdc_rx_flag_update_testBit (pdc1 : At91Pdc) (flags : At91PdcFlags)
    (sr value : Nat) {eR bR : Nat}
    (hfe : flags.flag_endrx = 2 ^ eR) (hfb : flags.flag_rxbuff = 2 ^ bR)
    (he : eR < 32) (hb : bR < 32) (hne : eR ≠ bR) :
    ((pdc_rx_flag_update pdc1 flags sr value).testBit eR ↔
      (pdc1.reg_ptsr &&& PTSR_RXTEN ≠ 0 ∧ pdc1.reg_rcr = 0) ∨
      (sr.testBit eR ∧ mask32 value = 0)) ∧
    ((pdc_rx_flag_update pdc1 flags sr value).testBit bR ↔
      (pdc1.reg_ptsr &&& PTSR_RXTEN ≠ 0 ∧ pdc1.reg_rcr = 0 ∧
       pdc1.reg_rncr = 0) ∨
      (sr.testBit bR ∧ mask32 value = 0)) := by
  unfold pdc_rx_flag_update
  have h1 : (not32 (2 ^ eR)).testBit eR = false := by
    rw [testBit_not32 _ he, Nat.testBit_two_pow_self]; rfl
  have h2 : (not32 (2 ^ bR)).testBit bR = false := by
    rw [testBit_not32 _ hb, Nat.testBit_two_pow_self]; rfl
  have h3 : (not32 (2 ^ eR)).testBit bR = true := by
    rw [testBit_not32 _ hb, Nat.testBit_two_pow_of_ne hne]; rfl
  have h4 : (not32 (2 ^ bR)).testBit eR = true := by
    rw [testBit_not32 _ he, Nat.testBit_two_pow_of_ne (Ne.symm hne)]; rfl
  by_cases hV : mask32 value ≠ 0 <;>
    by_cases hC : pdc1.reg_ptsr &&& PTSR_RXTEN ≠ 0 ∧ pdc1.reg_rcr = 0 <;>
      by_cases hN : pdc1.reg_rncr = 0 <;>
        simp [hV, hC, hN, hfe, hfb, Nat.testBit_or, Nat.testBit_and,
          h1, h2, h3, h4, Nat.testBit_two_pow_self,
          Nat.testBit_two_pow_of_ne hne,
          Nat.testBit_two_pow_of_ne (Ne.symm hne)] <;>
        tauto

/-- Characterisation of the TX status-flag update, symmetric to
`pdc_rx_flag_update_testBit`. -/
theorem pdc_tx_flag_update_testBit (pdc1 : At91Pdc) (flags : At91PdcFlags)
    (sr value : Nat) {eT bT : Nat}
    (hfe : flags.flag_endtx = 2 ^ eT) (hfb : flags.flag_txbufe = 2 ^ bT)
    (he : eT < 32) (hb : bT < 32) (hne : eT ≠ bT) :
    ((pdc_tx_flag_update pdc1 flags sr value).testBit eT ↔
      (pdc1.reg_ptsr &&& PTSR_TXTEN ≠ 0 ∧ pdc1.reg_tcr = 0) ∨
      (sr.testBit eT ∧ mask32 value = 0)) ∧
    ((pdc_tx_flag_update pdc1 flags sr value).testBit bT ↔
      (pdc1.reg_ptsr &&& PTSR_TXTEN ≠ 0 ∧ pdc1.reg_tcr = 0 ∧
       pdc1.reg_tncr = 0) ∨
      (sr.testBit bT ∧ mask32 value = 0)) := by
  unfold pdc_tx_flag_update
  have h1 : (not32 (2 ^ eT)).testBit eT = false := by
    rw [testBit_not32 _ he, Nat.testBit_two_pow_self]; rfl
  have h2 : (not32 (2 ^ bT)).testBit bT = false := by
    rw [testBit_not32 _ hb, Nat.testBit_two_pow_self]; rfl
  have h3 : (not32 (2 ^ eT)).testBit bT = true := by
    rw [testBit_not32 _ hb, Nat.testBit_two_pow_of_ne hne]; rfl
  have h4 : (not32 (2 ^ bT)).testBit eT = true := by
    rw [testBit_not32 _ he, Nat.testBit_two_pow_of_ne (Ne.symm hne)]; rfl
  by_cases hV : mask32 value ≠ 0 <;>
    by_cases hC : pdc1.reg_ptsr &&& PTSR_TXTEN ≠ 0 ∧ pdc1.reg_tcr = 0 <;>
      by_cases hN : pdc1.reg_tncr = 0 <;>
        simp [hV, hC, hN, hfe, hfb, Nat.testBit_or, Nat.testBit_and,
          h1, h2, h3, h4, Nat.testBit_two_pow_self,
          Nat.testBit_two_pow_of_ne hne,
          Nat.testBit_two_pow_of_ne (Ne.symm hne)] <;>
        tauto

/-- Reduction of `at91_pdc_set_register` at the four counter offsets. -/
theorem at91_pdc_set_register_counters (pdc : At91Pdc) (value : Nat) :
    at91_pdc_set_register pdc PDC_RCR value =
      some ({ pdc with reg_rcr := mask16 (mask32 value) },
        if pdc.reg_ptsr &&& PTSR_RXTEN ≠ 0 then
          (if mask32 value ≠ 0 then .start_rx else .stop_rx)
        else .none) ∧
    at91_pdc_set_register pdc PDC_RNCR value =
      some ({ pdc with reg_rncr := mask16 (mask32 value) }, .none) ∧
    at91_pdc_set_register pdc PDC_TCR value =
      some ({ pdc with reg_tcr := mask16 (mask32 value) },
        if pdc.reg_ptsr &&& PTSR_TXTEN ≠ 0 then
          (if mask32 value ≠ 0 then .start_tx else .stop_tx)
        else .none) ∧
    at91_pdc_set_register pdc PDC_TNCR value =
      some ({ pdc with reg_tncr := mask16 (mask32 value) }, .none) := by
  refine ⟨?_, by rfl, ?_, by rfl⟩
  · unfold at91_pdc_set_register
    norm_num [PDC_RPR, PDC_RCR]
    by_cases h : pdc.reg_ptsr &&& PTSR_RXTEN = 0 <;> simp [h]
  · unfold at91_pdc_set_register
    norm_num [PDC_RPR, PDC_RCR, PDC_TPR, PDC_TCR]
    by_cases h : pdc.reg_ptsr &&& PTSR_TXTEN = 0 <;> simp [h]

/-- The USART instantiation of the PDC status flags
(`CSR_ENDRX = BIT 3`, `CSR_ENDTX = BIT 4`, `CSR_RXBUFF = BIT 12`,
`CSR_TXBUFE = BIT 11`). -/
def c2Flags : At91PdcFlags :=
  { flag_endrx := 8, flag_endtx := 16, flag_rxbuff := 4096, flag_txbufe := 2048 }

/-- PDC block with RX transfers disabled (`PTSR = 0`) and `RCR = 5`. -/
def c2Pdc : At91Pdc :=
  { reg_ptsr := 0, reg_rpr := 0, reg_rnpr := 0, reg_tpr := 0, reg_tnpr := 0
    reg_rcr := 5, reg_rncr := 0, reg_tcr := 0, reg_tncr := 0 }

/-- Counterexample to C2 as stated: with RXTEN clear, `RCR = 5` and
ENDRX (bit 3) already set in the status register, writing `RNCR := 0`
through `at91_pdc_generic_set_register` leaves ENDRX set, although
"`RCR == 0` and RXTEN" is false — the write touches neither bit, so the
claimed "iff" fails. -/
theorem pdc_endrx_iff_counterexample :
    at91_pdc_generic_set_register c2Pdc c2Flags 8 PDC_RNCR 0 =
      some (c2Pdc, 8, PdcAction.none) ∧
    Nat.testBit 8 3 = true ∧
    ¬ (c2Pdc.reg_rcr = 0 ∧ c2Pdc.reg_ptsr &&& PTSR_RXTEN ≠ 0) := by decide

/-- C2 (amended): after a write of `value` to RCR or RNCR through the
generic PDC register-set operation, ENDRX is set iff (RXTEN and the
updated RCR is 0) or (it was set before and the written value is 0);
RXBUFF is set iff (RXTEN and the updated RCR and RNCR are both 0) or
(it was set before and the written value is 0).  In particular a
non-zero write clears ENDRX/RXBUFF unless the set-condition re-asserts
them in the same operation.  Symmetrically for TCR/TNCR with
ENDTX/TXBUFE.  The flag masks are the single bits the peripherals
use. -/
theorem pdc_counter_write_status_flags (pdc : At91Pdc) (flags : At91PdcFlags)
    (sr value off : Nat) {eR bR eT bT : Nat}
    (hfeR : flags.flag_endrx = 2 ^ eR) (hfbR : flags.flag_rxbuff = 2 ^ bR)
    (hfeT : flags.flag_endtx = 2 ^ eT) (hfbT : flags.flag_txbufe = 2 ^ bT)
    (heR : eR < 32) (hbR : bR < 32) (heT : eT < 32) (hbT : bT < 32)
    (hneR : eR ≠ bR) (hneT : eT ≠ bT) :
    (off = PDC_RCR ∨ off = PDC_RNCR →
      ∃ pdc1 sr1 act,
        at91_pdc_generic_set_register pdc flags sr off value =
          some (pdc1, sr1, act) ∧
        (sr1.testBit eR ↔
          (pdc1.reg_ptsr &&& PTSR_RXTEN ≠ 0 ∧ pdc1.reg_rcr = 0) ∨
          (sr.testBit eR ∧ mask32 value = 0)) ∧
        (sr1.testBit bR ↔
          (pdc1.reg_ptsr &&& PTSR_RXTEN ≠ 0 ∧ pdc1.reg_rcr = 0 ∧
           pdc1.reg_rncr = 0) ∨
          (sr.testBit bR ∧ mask32 value = 0))) ∧
    (off = PDC_TCR ∨ off = PDC_TNCR →
      ∃ pdc1 sr1 act,
        at91_pdc_generic_set_register pdc flags sr off value =
          some (pdc1, sr1, act) ∧
        (sr1.testBit eT ↔
          (pdc1.reg_ptsr &&& PTSR_TXTEN ≠ 0 ∧ pdc1.reg_tcr = 0) ∨
          (sr.testBit eT ∧ mask32 value = 0)) ∧
        (sr1.testBit bT ↔
          (pdc1.reg_ptsr &&& PTSR_TXTEN ≠ 0 ∧ pdc1.reg_tcr = 0 ∧
           pdc1.reg_tncr = 0) ∨
          (sr.testBit bT ∧ mask32 value = 0))) := by
  constructor
  · rintro (rfl | rfl)
    · refine ⟨{ pdc with reg_rcr := mask16 (mask32 value) },
        pdc_rx_flag_update { pdc with reg_rcr := mask16 (mask32 value) }
          flags sr value,
        (if pdc.reg_ptsr &&& PTSR_RXTEN ≠ 0 then
          (if mask32 value ≠ 0 then PdcAction.start_rx else PdcAction.stop_rx)
         else PdcAction.none), ?_, ?_, ?_⟩
      · unfold at91_pdc_generic_set_register
        rw [(at91_pdc_set_register_counters pdc value).1]
        norm_num [PDC_RCR, PDC_RNCR]
      · exact (pdc_rx_flag_update_testBit _ flags sr value
          hfeR hfbR heR hbR hneR).1
      · exact (pdc_rx_flag_update_testBit _ flags sr value
          hfeR hfbR heR hbR hneR).2
    · refine ⟨{ pdc with reg_rncr := mask16 (mask32 value) },
        pdc_rx_flag_update { pdc with reg_rncr := mask16 (mask32 value) }
          flags sr value, PdcAction.none, ?_, ?_, ?_⟩
      · unfold at91_pdc_generic_set_register
        rw [(at91_pdc_set_register_counters pdc value).2.1]
        norm_num [PDC_RCR, PDC_RNCR]
      · exact (pdc_rx_flag_update_testBit _ flags sr value
          hfeR hfbR heR hbR hneR).1
      · exact (pdc_rx_flag_update_testBit _ flags sr value
          hfeR hfbR heR hbR hneR).2
  · rintro (rfl | rfl)
    · refine ⟨{ pdc with reg_tcr := mask16 (mask32 value) },
        pdc_tx_flag_update { pdc with reg_tcr := mask16 (mask32 value) }
          flags sr value,
        (if pdc.reg_ptsr &&& PTSR_TXTEN ≠ 0 then
          (if mask32 value ≠ 0 then PdcAction.start_tx else PdcAction.stop_tx)
         else PdcAction.none), ?_, ?_, ?_⟩
      · unfold at91_pdc_generic_set_register
        rw [(at91_pdc_set_register_counters pdc value).2.2.1]
        norm_num [PDC_RCR, PDC_RNCR, PDC_TCR, PDC_TNCR]
      · exact (pdc_tx_flag_update_testBit _ flags sr value
          hfeT hfbT heT hbT hneT).1
      · exact (pdc_tx_flag_update_testBit _ flags sr value
          hfeT hfbT heT hbT hneT).2
    · refine ⟨{ pdc with reg_tncr := mask16 (mask32 value) },
        pdc_tx_flag_update { pdc with reg_tncr := mask16 (mask32 value) }
          flags sr value, PdcAction.none, ?_, ?_, ?_⟩
      · unfold at91_pdc_generic_set_register
        rw [(at91_pdc_set_register_counters pdc value).2.2.2]
        norm_num [PDC_RCR, PDC_RNCR, PDC_TCR, PDC_TNCR]
      · exact (pdc_tx_flag_update_testBit _ flags sr value
          hfeT hfbT heT hbT hneT).1
      · exact (pdc_tx_flag_update_testBit _ flags sr value
          hfeT hfbT heT hbT hneT).2

/-- PDC block with RX transfers enabled for the C2 witness. -/
def c2PdcEnabled : At91Pdc := { c2Pdc with reg_ptsr := 1, reg_rcr := 0 }

/-- Witness for the amended C2: writing `RCR := 0` with RXTEN enabled
yields a status register with ENDRX and RXBUFF characterised as
stated. -/
theorem pdc_counter_write_status_flags_witness :
    ∃ pdc1 sr1 act,
      at91_pdc_generic_set_register c2PdcEnabled c2Flags 0 PDC_RCR 0 =
        some (pdc1, sr1, act) ∧
      (sr1.testBit 3 ↔
        (pdc1.reg_ptsr &&& PTSR_RXTEN ≠ 0 ∧ pdc1.reg_rcr = 0) ∨
        (Nat.testBit 0 3 ∧ mask32 0 = 0)) ∧
      (sr1.testBit 12 ↔
        (pdc1.reg_ptsr &&& PTSR_RXTEN ≠ 0 ∧ pdc1.reg_rcr = 0 ∧
         pdc1.reg_rncr = 0) ∨
        (Nat.testBit 0 12 ∧ mask32 0 = 0)) :=
  (@pdc_counter_write_status_flags c2PdcEnabled c2Flags 0 0 PDC_RCR
    3 12 4 11 (by decide) (by decide) (by decide) (by decide)
    (by decide) (by decide) (by decide) (by decide)
    (by decide) (by decide)).1 (Or.inl rfl)

/-! ## PMC — power management controller (`at91-pmc.c`, `at91-pmc.h`) -/

def AT91_PMC_SLCK : Nat := 32768
def AT91_PMC_MCK : Nat := 18432000

def SR_MOSCS : Nat := 0x00000001
def SR_LOCKA : Nat := 0x00000002
def SR_LOCKB : Nat := 0x00000004
def SR_MCKRDY : Nat := 0x00000008

def PMC_SCER : Nat := 0x00
def PMC_SCDR : Nat := 0x04
def PMC_PCER : Nat := 0x10
def PMC_PCDR : Nat := 0x14
def CKGR_MOR : Nat := 0x20
def CKGR_PLLAR : Nat := 0x28
def CKGR_PLLBR : Nat := 0x2C
def PMC_MCKR : Nat := 0x30
def PMC_PCK0 : Nat := 0x40
def PMC_PCK1 : Nat := 0x44
def PMC_IER : Nat := 0x60
def PMC_IDR : Nat := 0x64
def PMC_PLLICPR : Nat := 0x80

/-- `PmcState` from `at91-pmc.h` (registers plus the cached master
clock frequency; the callback pointer itself carries no state we track —
the step functions report whether it was invoked). -/
structure PmcState where
  reg_pmc_scsr : Nat
  reg_pmc_pcsr : Nat
  reg_ckgr_mor : Nat
  reg_ckgr_mcfr : Nat
  reg_ckgr_plla : Nat
  reg_ckgr_pllb : Nat
  reg_pmc_mckr : Nat
  reg_pmc_pck0 : Nat
  reg_pmc_pck1 : Nat
  reg_pmc_sr : Nat
  reg_pmc_imr : Nat
  reg_pmc_pllicpr : Nat
  master_clock_freq : Nat
  deriving Repr, DecidableEq, Inhabited

/-- The `ready` computation of `pmc_update_mckr` (switch on CSS). -/
def pmc_mckr_ready (s : PmcState) : Bool :=
  let css := s.reg_pmc_mckr &&& 0x03
  if css = 0 then true
  else if css = 1 then s.reg_pmc_sr &&& SR_MOSCS ≠ 0
  else if css = 2 then
    s.reg_pmc_sr &&& SR_LOCKA ≠ 0 ∧ s.reg_ckgr_plla &&& 0x0000ff ≠ 0 ∧
      s.reg_ckgr_plla &&& 0xff0000 ≠ 0
  else
    s.reg_pmc_sr &&& SR_LOCKB ≠ 0 ∧ s.reg_ckgr_pllb &&& 0x0000ff ≠ 0 ∧
      s.reg_ckgr_pllb &&& 0x3f0000 ≠ 0

/-- The `freq` computation of `pmc_update_mckr`: when the selected
source is ready, the source frequency divided by the prescaler and
MDIV; otherwise the previous `master_clock_freq` (the local variable's
initial value).  The multiplication is a 32-bit (`unsigned`)
operation. -/
def pmc_mckr_freq (s : PmcState) : Nat :=
  if pmc_mckr_ready s then
    let css := s.reg_pmc_mckr &&& 0x03
    let freq :=
      if css = 0 then AT91_PMC_SLCK
      else if css = 1 then AT91_PMC_MCK
      else if css = 2 then
        mask32 ((AT91_PMC_MCK / (s.reg_ckgr_plla &&& 0xff)) *
          (((s.reg_ckgr_plla >>> 16) &&& 0xff) + 1))
      else
        mask32 ((AT91_PMC_MCK / (s.reg_ckgr_pllb &&& 0xff)) *
          (((s.reg_ckgr_pllb >>> 16) &&& 0x3f) + 1))
    let freq := freq / (1 <<< ((s.reg_pmc_mckr >>> 2) &&& 0x07))
    if (s.reg_pmc_mckr >>> 8) &&& 0x03 ≠ 0 then
      freq / (2 * ((s.reg_pmc_mckr >>> 8) &&& 0x03))
    else freq
  else s.master_clock_freq

/-- `pmc_update_mckr`: set or clear MCKRDY from the readiness of the
selected source, and when the recomputed frequency differs from the
cached one, store it and invoke the master-clock-change callback (the
returned Bool reports the invocation). -/
def pmc_update_mckr (s : PmcState) : PmcState × Bool :=
  let ready := pmc_mckr_ready s
  let freq := pmc_mckr_freq s
  let s1 := if ready then { s with reg_pmc_sr := s.reg_pmc_sr ||| SR_MCKRDY }
            else { s with reg_pmc_sr := s.reg_pmc_sr &&& not32 SR_MCKRDY }
  if s.master_clock_freq ≠ freq then
    ({ s1 with master_clock_freq := freq }, true)
  else (s1, false)

/-- The register-assignment part of `pmc_mmio_write` (the switch),
before the trailing `pmc_update_mckr` call; `none` models the
`abort()` default case. -/
def pmc_mmio_write_assign (s : PmcState) (offset value0 : Nat) :
    Option PmcState :=
  let value := mask32 value0
  match offset with
  | 0x00 => some { s with reg_pmc_scsr := s.reg_pmc_scsr ||| value }
  | 0x04 => some { s with reg_pmc_scsr := s.reg_pmc_scsr &&& not32 value }
  | 0x10 => some { s with reg_pmc_pcsr := s.reg_pmc_pcsr ||| value }
  | 0x14 => some { s with reg_pmc_pcsr := s.reg_pmc_pcsr &&& not32 value }
  | 0x20 =>
      some { s with
        reg_ckgr_mor := value
        reg_pmc_sr := (s.reg_pmc_sr &&& not32 0x00000001) ||| (value &&& 0x00000001)
        reg_ckgr_mcfr := if value &&& 1 ≠ 0 then
            (1 <<< 16) ||| (AT91_PMC_MCK / AT91_PMC_SLCK / 16)
          else 0 }
  | 0x28 => some { s with reg_ckgr_plla := value
                          reg_pmc_sr := s.reg_pmc_sr ||| SR_LOCKA }
  | 0x2C => some { s with reg_ckgr_pllb := value
                          reg_pmc_sr := s.reg_pmc_sr ||| SR_LOCKB }
  | 0x30 => some { s with reg_pmc_mckr := value }
  | 0x40 => some { s with reg_pmc_pck0 := value }
  | 0x44 => some { s with reg_pmc_pck1 := value }
  | 0x60 => some { s with reg_pmc_imr := s.reg_pmc_imr ||| value }
  | 0x64 => some { s with reg_pmc_imr := s.reg_pmc_imr &&& not32 value }
  | 0x80 => some { s with reg_pmc_pllicpr := value }
  | _ => none

/-- `pmc_mmio_write` (second revision of `at91-pmc.c`): the register
assignment followed by `pmc_update_mckr` (the trailing `qemu_set_irq`
touches no device state).  The returned Bool reports whether the
master-clock-change callback was invoked. -/
def pmc_mmio_write (s : PmcState) (offset value0 : Nat) :
    Option (PmcState × Bool) :=
  (pmc_mmio_write_assign s offset value0).map pmc_update_mckr

/-- A conjunction with a single-bit mask is non-zero exactly when the
corresponding bit is set. -/
theorem and_two_pow_ne_zero (x k : Nat) :
    (x &&& 2 ^ k ≠ 0) ↔ x.testBit k = true := by
  rw [Nat.and_two_pow]
  cases h : x.testBit k <;> simp [h]

/-- `pmc_update_mckr` rewrites `PMC_SR` by setting or clearing MCKRDY
according to readiness. -/
theorem pmc_update_mckr_sr (s : PmcState) :
    (pmc_update_mckr s).1.reg_pmc_sr =
      if pmc_mckr_ready s then s.reg_pmc_sr ||| SR_MCKRDY
      else s.reg_pmc_sr &&& not32 SR_MCKRDY := by
  unfold pmc_update_mckr
  by_cases h : s.master_clock_freq ≠ pmc_mckr_freq s <;>
    cases hr : pmc_mckr_ready s <;> simp [h, hr]

/-- After `pmc_update_mckr` the cached frequency is the recomputed
one. -/
theorem pmc_update_mckr_freq (s : PmcState) :
    (pmc_update_mckr s).1.master_clock_freq = pmc_mckr_freq s := by
  unfold pmc_update_mckr
  by_cases h : s.master_clock_freq ≠ pmc_mckr_freq s <;>
    cases hr : pmc_mckr_ready s <;> simp [h, hr] <;> exact not_not.mp h

/-- The callback fires exactly when the cached frequency changed. -/
theorem pmc_update_mckr_fired (s : PmcState) :
    (pmc_update_mckr s).2 = true ↔
      (pmc_update_mckr s).1.master_clock_freq ≠ s.master_clock_freq := by
  unfold pmc_update_mckr
  by_cases h : s.master_clock_freq ≠ pmc_mckr_freq s <;>
    cases hr : pmc_mckr_ready s <;> simp [h, hr]
  all_goals exact fun h' => h h'.symm

/-- `pmc_update_mckr` leaves the clock-selection registers alone. -/
theorem pmc_update_mckr_regs (s : PmcState) :
    (pmc_update_mckr s).1.reg_pmc_mckr = s.reg_pmc_mckr ∧
    (pmc_update_mckr s).1.reg_ckgr_plla = s.reg_ckgr_plla ∧
    (pmc_update_mckr s).1.reg_ckgr_pllb = s.reg_ckgr_pllb := by
  unfold pmc_update_mckr
  by_cases h : s.master_clock_freq ≠ pmc_mckr_freq s <;>
    cases hr : pmc_mckr_ready s <;> simp [h, hr]

/-- Readiness only depends on MCKR, the PLL registers and the three
low SR bits. -/
theorem pmc_mckr_ready_congr (s t : PmcState)
    (hm : t.reg_pmc_mckr = s.reg_pmc_mckr)
    (ha : t.reg_ckgr_plla = s.reg_ckgr_plla)
    (hb : t.reg_ckgr_pllb = s.reg_ckgr_pllb)
    (h0 : t.reg_pmc_sr.testBit 0 = s.reg_pmc_sr.testBit 0)
    (h1 : t.reg_pmc_sr.testBit 1 = s.reg_pmc_sr.testBit 1)
    (h2 : t.reg_pmc_sr.testBit 2 = s.reg_pmc_sr.testBit 2) :
    pmc_mckr_ready t = pmc_mckr_ready s := by
  have e0 : (t.reg_pmc_sr &&& SR_MOSCS ≠ 0) ↔ (s.reg_pmc_sr &&& SR_MOSCS ≠ 0) := by
    rw [show SR_MOSCS = 2 ^ 0 from rfl, and_two_pow_ne_zero,
      and_two_pow_ne_zero, h0]
  have e1 : (t.reg_pmc_sr &&& SR_LOCKA ≠ 0) ↔ (s.reg_pmc_sr &&& SR_LOCKA ≠ 0) := by
    rw [show SR_LOCKA = 2 ^ 1 from rfl, and_two_pow_ne_zero,
      and_two_pow_ne_zero, h1]
  have e2 : (t.reg_pmc_sr &&& SR_LOCKB ≠ 0) ↔ (s.reg_pmc_sr &&& SR_LOCKB ≠ 0) := by
    rw [show SR_LOCKB = 2 ^ 2 from rfl, and_two_pow_ne_zero,
      and_two_pow_ne_zero, h2]
  unfold pmc_mckr_ready
  rw [hm, ha, hb]
  simp only [e0, e1, e2]

/-- When the source is ready, the recomputed frequency only depends on
MCKR and the PLL registers. -/
theorem pmc_mckr_freq_congr (s t : PmcState)
    (hm : t.reg_pmc_mckr = s.reg_pmc_mckr)
    (ha : t.reg_ckgr_plla = s.reg_ckgr_plla)
    (hb : t.reg_ckgr_pllb = s.reg_ckgr_pllb)
    (h0 : t.reg_pmc_sr.testBit 0 = s.reg_pmc_sr.testBit 0)
    (h1 : t.reg_pmc_sr.testBit 1 = s.reg_pmc_sr.testBit 1)
    (h2 : t.reg_pmc_sr.testBit 2 = s.reg_pmc_sr.testBit 2)
    (hready : pmc_mckr_ready s = true) :
    pmc_mckr_freq t = pmc_mckr_freq s := by
  unfold pmc_mckr_freq
  rw [pmc_mckr_ready_congr s t hm ha hb h0 h1 h2, hready, hm, ha, hb]
  simp

/-- The three low SR bits survive the MCKRDY update. -/
theorem pmc_update_mckr_sr_low_bits (s : PmcState) (k : Nat) (hk : k < 3) :
    (pmc_update_mckr s).1.reg_pmc_sr.testBit k = s.reg_pmc_sr.testBit k := by
  rw [pmc_update_mckr_sr]
  have h8 : (SR_MCKRDY).testBit k = false := by
    interval_cases k <;> decide
  cases hr : pmc_mckr_ready s <;> simp [hr, Nat.testBit_or, h8]
  intro _
  rw [testBit_not32 _ (show k < 32 by omega)]
  simp [h8]

/-- MCKRDY after `pmc_update_mckr` equals the readiness of the
source. -/
theorem pmc_update_mckr_mckrdy (s : PmcState) :
    (pmc_update_mckr s).1.reg_pmc_sr.testBit 3 = pmc_mckr_ready s := by
  rw [pmc_update_mckr_sr]
  cases hr : pmc_mckr_ready s <;> simp [hr, Nat.testBit_or]
  · intro _
    rw [testBit_not32 _ (show (3 : Nat) < 32 by omega)]
    decide
  · right; decide

/-- Running `pmc_update_mckr` twice never fires the callback the
second time: the first run cached exactly the recomputed frequency. -/
theorem pmc_update_mckr_stable (s : PmcState) :
    (pmc_update_mckr ((pmc_update_mckr s).1)).2 = false := by
  set s1 := (pmc_update_mckr s).1 with hs1
  obtain ⟨hm, ha, hb⟩ := pmc_update_mckr_regs s
  have hready : pmc_mckr_ready s1 = pmc_mckr_ready s :=
    pmc_mckr_ready_congr s s1 hm ha hb
      (pmc_update_mckr_sr_low_bits s 0 (by omega))
      (pmc_update_mckr_sr_low_bits s 1 (by omega))
      (pmc_update_mckr_sr_low_bits s 2 (by omega))
  have hfreq1 : s1.master_clock_freq = pmc_mckr_freq s := pmc_update_mckr_freq s
  have hkey : pmc_mckr_freq s1 = s1.master_clock_freq := by
    cases hr : pmc_mckr_ready s with
    | false =>
        unfold pmc_mckr_freq
        rw [hready, hr]
        simp
    | true =>
        rw [hfreq1]
        exact pmc_mckr_freq_congr s s1 hm ha hb
          (pmc_update_mckr_sr_low_bits s 0 (by omega))
          (pmc_update_mckr_sr_low_bits s 1 (by omega))
          (pmc_update_mckr_sr_low_bits s 2 (by omega)) hr
  cases hfired : (pmc_update_mckr s1).2 with
  | false => rfl
  | true =>
      have hne := (pmc_update_mckr_fired s1).mp hfired
      rw [pmc_update_mckr_freq s1] at hne
      exact absurd hkey hne

/-- The register-assignment switch never touches the cached
frequency. -/
theorem pmc_assign_preserves_freq (s : PmcState) (off value : Nat)
    (t : PmcState) (h : pmc_mmio_write_assign s off value = some t) :
    t.master_clock_freq = s.master_clock_freq := by
  unfold pmc_mmio_write_assign at h
  split at h <;>
    first
      | exact Option.noConfusion h
      | (injection h with h; rw [← h])

/-- Every successful `pmc_mmio_write` is `pmc_update_mckr` applied to a
register-assignment state with unchanged cached frequency. -/
theorem pmc_write_decomposition (s : PmcState) (off value : Nat)
    (p : PmcState × Bool)
    (h : pmc_mmio_write s off value = some p) :
    ∃ t, t.master_clock_freq = s.master_clock_freq ∧
      pmc_update_mckr t = p := by
  unfold pmc_mmio_write at h
  cases hassign : pmc_mmio_write_assign s off value with
  | none => rw [hassign, Option.map_none'] at h; exact Option.noConfusion h
  | some t =>
      rw [hassign, Option.map_some'] at h
      exact ⟨t, pmc_assign_preserves_freq s off value t hassign,
        Option.some.inj h⟩

/-- Reduction of the `PMC_MCKR` write. -/
theorem pmc_mmio_write_mckr_eq (s : PmcState) (value : Nat) :
    pmc_mmio_write s PMC_MCKR value =
      some (pmc_update_mckr { s with reg_pmc_mckr := mask32 value }) := by
  unfold pmc_mmio_write
  rw [show pmc_mmio_write_assign s PMC_MCKR value =
    some { s with reg_pmc_mckr := mask32 value } from rfl]
  rfl

/-- Reduction of the `CKGR_MOR` write. -/
theorem pmc_mmio_write_mor_eq (s : PmcState) (value : Nat) :
    pmc_mmio_write s CKGR_MOR value =
      some (pmc_update_mckr { s with
        reg_ckgr_mor := mask32 value
        reg_pmc_sr := (s.reg_pmc_sr &&& not32 0x00000001) |||
          (mask32 value &&& 0x00000001)
        reg_ckgr_mcfr := if mask32 value &&& 1 ≠ 0 then
            (1 <<< 16) ||| (AT91_PMC_MCK / AT91_PMC_SLCK / 16)
          else 0 }) := by
  unfold pmc_mmio_write
  rfl

/-- Reduction of the `CKGR_PLLAR` write. -/
theorem pmc_mmio_write_pllar_eq (s : PmcState) (value : Nat) :
    pmc_mmio_write s CKGR_PLLAR value =
      some (pmc_update_mckr { s with
        reg_ckgr_plla := mask32 value
        reg_pmc_sr := s.reg_pmc_sr ||| SR_LOCKA }) := by
  unfold pmc_mmio_write
  rfl

/-- Reduction of the `CKGR_PLLBR` write. -/
theorem pmc_mmio_write_pllbr_eq (s : PmcState) (value : Nat) :
    pmc_mmio_write s CKGR_PLLBR value =
      some (pmc_update_mckr { s with
        reg_ckgr_pllb := mask32 value
        reg_pmc_sr := s.reg_pmc_sr ||| SR_LOCKB }) := by
  unfold pmc_mmio_write
  rfl

/-- Readiness unfolds to the per-CSS validity conditions. -/
theorem pmc_mckr_ready_iff (s : PmcState) :
    pmc_mckr_ready s = true ↔
      (s.reg_pmc_mckr &&& 0x03 = 0 ∨
       (s.reg_pmc_mckr &&& 0x03 = 1 ∧ s.reg_pmc_sr &&& SR_MOSCS ≠ 0) ∨
       (s.reg_pmc_mckr &&& 0x03 = 2 ∧ s.reg_pmc_sr &&& SR_LOCKA ≠ 0 ∧
         s.reg_ckgr_plla &&& 0x0000ff ≠ 0 ∧ s.reg_ckgr_plla &&& 0xff0000 ≠ 0) ∨
       (s.reg_pmc_mckr &&& 0x03 = 3 ∧ s.reg_pmc_sr &&& SR_LOCKB ≠ 0 ∧
         s.reg_ckgr_pllb &&& 0x0000ff ≠ 0 ∧ s.reg_ckgr_pllb &&& 0x3f0000 ≠ 0)) := by
  unfold pmc_mckr_ready
  have hle : s.reg_pmc_mckr &&& 0x03 ≤ 3 := Nat.and_le_right
  set c := s.reg_pmc_mckr &&& 0x03 with hc
  interval_cases c <;> simp

/-- PMC state at reset values with the slow clock already cached. -/
def pmcC5State : PmcState :=
  { reg_pmc_scsr := 3, reg_pmc_pcsr := 0, reg_ckgr_mor := 0
    reg_ckgr_mcfr := 0, reg_ckgr_plla := 0x3F00, reg_ckgr_pllb := 0x3F00
    reg_pmc_mckr := 0, reg_pmc_pck0 := 0, reg_pmc_pck1 := 0
    reg_pmc_sr := 8, reg_pmc_imr := 0, reg_pmc_pllicpr := 0
    master_clock_freq := 32768 }

/-- Counterexample to C5 as stated: writing `CKGR_PLLAR := 0` sets
LOCKA although both the divider field and the multiplier field of the
written configuration are zero — the PLLAR/PLLBR lock bits are set
unconditionally; only MCKRDY checks the divider/multiplier. -/
theorem pmc_locka_without_valid_pll_counterexample :
    (pmc_mmio_write pmcC5State CKGR_PLLAR 0).map
        (fun p => (p.1.reg_pmc_sr &&& SR_LOCKA, p.1.reg_ckgr_plla &&& 0x0000ff,
                   p.1.reg_ckgr_plla &&& 0xff0000)) =
      some (2, 0, 0) := by decide

/-- C5 (amended): a `CKGR_MOR` write copies bit 0 (MOSCEN) of the
written value into MOSCS; `CKGR_PLLAR`/`CKGR_PLLBR` writes set
LOCKA/LOCKB unconditionally and immediately; a `PMC_MCKR` write sets
MCKRDY immediately, but only when the selected source is ready — for
the PLL sources this requires the lock bit together with a non-zero
divider and a non-zero multiplier field. -/
theorem pmc_readiness_bits (s : PmcState) (value : Nat) :
    ((pmc_mmio_write s CKGR_MOR value).map
        (fun p => p.1.reg_pmc_sr.testBit 0) =
      some ((mask32 value).testBit 0)) ∧
    ((pmc_mmio_write s CKGR_PLLAR value).map
        (fun p => p.1.reg_pmc_sr.testBit 1) = some true) ∧
    ((pmc_mmio_write s CKGR_PLLBR value).map
        (fun p => p.1.reg_pmc_sr.testBit 2) = some true) ∧
    ((pmc_mmio_write s PMC_MCKR value).map
        (fun p => p.1.reg_pmc_sr.testBit 3) =
      some (pmc_mckr_ready { s with reg_pmc_mckr := mask32 value })) ∧
    (pmc_mckr_ready { s with reg_pmc_mckr := mask32 value } = true ↔
      (mask32 value &&& 0x03 = 0 ∨
       (mask32 value &&& 0x03 = 1 ∧ s.reg_pmc_sr &&& SR_MOSCS ≠ 0) ∨
       (mask32 value &&& 0x03 = 2 ∧ s.reg_pmc_sr &&& SR_LOCKA ≠ 0 ∧
         s.reg_ckgr_plla &&& 0x0000ff ≠ 0 ∧
         s.reg_ckgr_plla &&& 0xff0000 ≠ 0) ∨
       (mask32 value &&& 0x03 = 3 ∧ s.reg_pmc_sr &&& SR_LOCKB ≠ 0 ∧
         s.reg_ckgr_pllb &&& 0x0000ff ≠ 0 ∧
         s.reg_ckgr_pllb &&& 0x3f0000 ≠ 0))) := by
  have hn0 : (not32 0x00000001).testBit 0 = false := by
    rw [testBit_not32 _ (by omega)]; decide
  refine ⟨?_, ?_, ?_, ?_, ?_⟩
  · rw [pmc_mmio_write_mor_eq, Option.map_some', Option.some_inj,
      pmc_update_mckr_sr_low_bits _ 0 (by omega)]
    show ((s.reg_pmc_sr &&& not32 0x00000001) |||
      (mask32 value &&& 0x00000001)).testBit 0 = _
    simp only [Nat.testBit_or, Nat.testBit_and, hn0, Bool.and_false,
      Bool.false_or, (by decide : Nat.testBit 0x00000001 0 = true),
      Bool.and_true]
  · rw [pmc_mmio_write_pllar_eq, Option.map_some', Option.some_inj,
      pmc_update_mckr_sr_low_bits _ 1 (by omega)]
    show (s.reg_pmc_sr ||| SR_LOCKA).testBit 1 = true
    simp [Nat.testBit_or, (by decide : (SR_LOCKA).testBit 1 = true)]
  · rw [pmc_mmio_write_pllbr_eq, Option.map_some', Option.some_inj,
      pmc_update_mckr_sr_low_bits _ 2 (by omega)]
    show (s.reg_pmc_sr ||| SR_LOCKB).testBit 2 = true
    simp [Nat.testBit_or, (by decide : (SR_LOCKB).testBit 2 = true)]
  · rw [pmc_mmio_write_mckr_eq, Option.map_some', Option.some_inj]
    exact pmc_update_mckr_mckrdy _
  · exact pmc_mckr_ready_iff _

/-- Witness for C5: a concrete `CKGR_PLLAR` write sets LOCKA. -/
theorem pmc_readiness_bits_witness :
    (pmc_mmio_write pmcC5State CKGR_PLLAR 0x3F01).map
        (fun p => p.1.reg_pmc_sr.testBit 1) = some true :=
  (pmc_readiness_bits pmcC5State 0x3F01).2.1

/-- PMC state for C6: the cached frequency already matches MCKR. -/
def pmcC6State : PmcState :=
  { reg_pmc_scsr := 3, reg_pmc_pcsr := 0, reg_ckgr_mor := 0
    reg_ckgr_mcfr := 0, reg_ckgr_plla := 0x3F00, reg_ckgr_pllb := 0x3F00
    reg_pmc_mckr := 0, reg_pmc_pck0 := 0, reg_pmc_pck1 := 0
    reg_pmc_sr := 8, reg_pmc_imr := 0, reg_pmc_pllicpr := 0
    master_clock_freq := 32768 }

/-- Counterexample to C6 as stated: on a state whose cached master
clock already matches the MCKR configuration, writing the same MCKR
value twice invokes the callback zero times, not exactly once. -/
theorem pmc_mckr_double_write_counterexample :
    (pmc_mmio_write pmcC6State PMC_MCKR 0).bind
        (fun p => (pmc_mmio_write p.1 PMC_MCKR 0).map
          (fun q => (p.2, q.2))) = some (false, false) := by decide

/-- C6 (amended): a register write invokes the master-clock-change
callback iff the recomputed frequency differs from the cached one, and
the second of two identical MCKR writes never invokes the callback
(so the pair fires at most once — once iff the first write changes the
frequency). -/
theorem pmc_mclk_callback_debounced :
    (∀ (s : PmcState) (off value : Nat) (p : PmcState × Bool),
       pmc_mmio_write s off value = some p →
       (p.2 = true ↔ p.1.master_clock_freq ≠ s.master_clock_freq)) ∧
    (∀ (s : PmcState) (value : Nat) (p q : PmcState × Bool),
       pmc_mmio_write s PMC_MCKR value = some p →
       pmc_mmio_write p.1 PMC_MCKR value = some q →
       q.2 = false) := by
  constructor
  · intro s off value p h
    obtain ⟨t, hfr, hup⟩ := pmc_write_decomposition s off value p h
    rw [← hup, ← hfr]
    exact pmc_update_mckr_fired t
  · intro s value p q h1 h2
    rw [pmc_mmio_write_mckr_eq] at h1 h2
    have e1 := Option.some.inj h1
    have e2 := Option.some.inj h2
    have hm : p.1.reg_pmc_mckr = mask32 value := by
      rw [← e1]
      exact (pmc_update_mckr_regs _).1
    have hp1 : ({ p.1 with reg_pmc_mckr := mask32 value } : PmcState) = p.1 := by
      rw [← hm]
    rw [hp1] at e2
    rw [← e2, ← e1]
    exact pmc_update_mckr_stable _

/-- Witness for C6: a concrete identical MCKR double-write — the first
write does not change the frequency (iff instance) and the second
fires nothing. -/
theorem pmc_mclk_callback_debounced_witness :
    ((pmcC6State, (false : Bool)).2 = true ↔
      (pmcC6State, (false : Bool)).1.master_clock_freq ≠
        pmcC6State.master_clock_freq) ∧
    ((pmcC6State, (false : Bool)).2 = false) :=
  ⟨(pmc_mclk_callback_debounced).1 pmcC6State PMC_MCKR 0
     (pmcC6State, false) (by decide),
   (pmc_mclk_callback_debounced).2 pmcC6State 0 (pmcC6State, false)
     (pmcC6State, false) (by decide) (by decide)⟩

/-! ## USART receive path (`at91-usart.c`, `at91-usart.h`) -/

def CSR_RXRDY : Nat := 1
def CSR_ENDRX : Nat := 8
def CSR_OVRE : Nat := 32
def CSR_RXBUFF : Nat := 4096
def RHR_RXCHR : Nat := 0x1ff
def RHR_RXSYNH : Nat := 0x8000
def ENXIO : Nat := 6

/-- The USART receive-side state (`UsartState` fields used by the
receive path, with the RX PDC registers inlined).  `memlog` records the
`address_space_rw` DMA writes as `(address, bytes)` pairs in issue
order. -/
structure UsartRx where
  rx_enabled : Bool
  rx_dma_enabled : Bool
  reg_csr : Nat
  reg_rhr : Nat
  rcvbuf : List Nat
  pdc_rpr : Nat
  pdc_rcr : Nat
  pdc_rnpr : Nat
  pdc_rncr : Nat
  memlog : List (Nat × List Nat)
  deriving Repr, DecidableEq, Inhabited

/-- `xfer_chr_receive`: set OVRE on overrun, store the character in
RHR, set RXRDY (`update_irq` touches no device state). -/
def xfer_chr_receive (s : UsartRx) (chr : Nat) (rxsynh : Bool) : UsartRx :=
  let s := if s.reg_csr &&& CSR_RXRDY ≠ 0 ∧ s.rx_enabled then
             { s with reg_csr := s.reg_csr ||| CSR_OVRE }
           else s
  { s with reg_rhr := (chr &&& RHR_RXCHR) ||| (if rxsynh then RHR_RXSYNH else 0)
           reg_csr := s.reg_csr ||| CSR_RXRDY }

/-- `xfer_receiver_next`: move the next buffered byte into RHR when RHR
is free. -/
def xfer_receiver_next (s : UsartRx) : UsartRx :=
  if s.rcvbuf.isEmpty then s
  else if s.reg_csr &&& CSR_RXRDY ≠ 0 then s
  else
    xfer_chr_receive { s with rcvbuf := s.rcvbuf.drop 1 }
      (s.rcvbuf.headD 0) false

/-- `xfer_receiver_dma_updreg`: set ENDRX/RXBUFF flags and roll the
next-buffer registers over. -/
def xfer_receiver_dma_updreg (s : UsartRx) : UsartRx :=
  let s := if s.pdc_rcr = 0 then { s with reg_csr := s.reg_csr ||| CSR_ENDRX }
           else s
  let s := if s.pdc_rcr = 0 ∧ s.pdc_rncr = 0 then
             { s with reg_csr := s.reg_csr ||| CSR_RXBUFF }
           else s
  if s.pdc_rcr = 0 ∧ s.pdc_rncr ≠ 0 then
    { s with pdc_rpr := s.pdc_rnpr, pdc_rnpr := 0
             pdc_rcr := s.pdc_rncr, pdc_rncr := 0 }
  else s

/-- `xfer_receiver_dma_rcr`: DMA `min (buffered, RCR)` bytes from the
front of the receive buffer into memory. -/
def xfer_receiver_dma_rcr (s : UsartRx) : UsartRx :=
  let len := min s.rcvbuf.length s.pdc_rcr
  let data := s.rcvbuf.take len
  { s with memlog := s.memlog ++ [(s.pdc_rpr, data)]
           rcvbuf := s.rcvbuf.drop len
           pdc_rpr := mask32 (s.pdc_rpr + len)
           pdc_rcr := s.pdc_rcr - len }

/-- `xfer_receiver_dma_rhr`: DMA the byte held in RHR (an 8-bit
truncation) into memory and clear RXRDY; the `uint16_t` counter
decrement wraps. -/
def xfer_receiver_dma_rhr (s : UsartRx) : UsartRx :=
  let chr := (s.reg_rhr &&& RHR_RXCHR) &&& 0xFF
  { s with memlog := s.memlog ++ [(s.pdc_rpr, [chr])]
           pdc_rpr := mask32 (s.pdc_rpr + 1)
           pdc_rcr := mask16 (s.pdc_rcr + 0xFFFF)
           reg_csr := s.reg_csr &&& not32 CSR_RXRDY }

/-- The third phase of `__xfer_receiver_dma`: the second
`xfer_receiver_dma_rcr` call and the final both-buffers-full flag
set. -/
def dma_core_phase3 (s : UsartRx) : UsartRx :=
  if s.pdc_rcr = 0 ∨ s.rcvbuf.isEmpty then s
  else if (xfer_receiver_dma_rcr s).pdc_rcr = 0 then
    { xfer_receiver_dma_rcr s with
        reg_csr := ((xfer_receiver_dma_rcr s).reg_csr ||| CSR_ENDRX) |||
          CSR_RXBUFF }
  else xfer_receiver_dma_rcr s

/-- The second phase of `__xfer_receiver_dma`: the first
`xfer_receiver_dma_rcr`/`updreg` pair with its early exits. -/
def dma_core_phase2 (s : UsartRx) : UsartRx :=
  if s.pdc_rcr = 0 ∨ s.rcvbuf.isEmpty then s
  else dma_core_phase3
    (xfer_receiver_dma_updreg (xfer_receiver_dma_rcr s))

/-- `__xfer_receiver_dma`: flush RHR when full, then run the buffer
phases. -/
def xfer_receiver_dma_core (s : UsartRx) : UsartRx :=
  dma_core_phase2
    (if s.reg_csr &&& CSR_RXRDY ≠ 0 then
       xfer_receiver_dma_updreg (xfer_receiver_dma_rhr s)
     else s)

/-- The tail of `xfer_receiver_dma` after `__xfer_receiver_dma`:
disable DMA when the current buffer is full, and fall back to RHR
delivery when both buffers are full. -/
def dma_after_core (s : UsartRx) : UsartRx :=
  if s.pdc_rcr = 0 then
    (if s.pdc_rncr = 0 then
       xfer_receiver_next { s with rx_dma_enabled := false }
     else { s with rx_dma_enabled := false })
  else s

/-- `xfer_receiver_dma`. -/
def xfer_receiver_dma (s : UsartRx) : UsartRx :=
  dma_after_core (xfer_receiver_dma_core s)

/-- `iox_receive_data`: handle an inbound `DATA`/`DATA_IN` frame.  The
returned value is the 32-bit status sent back through
`iox_send_u32_resp` (the `in_progress` test reads the buffer before the
append). -/
def iox_receive_data (s : UsartRx) (payload : List Nat) : UsartRx × Nat :=
  if ¬ s.rx_enabled then (s, ENXIO)
  else if ¬ s.rcvbuf.isEmpty then
    ({ s with rcvbuf := s.rcvbuf ++ payload }, 0)
  else if s.rx_dma_enabled then
    (xfer_receiver_dma { s with rcvbuf := s.rcvbuf ++ payload }, 0)
  else
    (xfer_receiver_next { s with rcvbuf := s.rcvbuf ++ payload }, 0)

/-- C7: whenever the receiver is enabled and RXRDY is already set, the
arrival of a character on the receive path (`xfer_chr_receive`) sets
the OVRE overrun bit. -/
theorem usart_overrun_on_receive (s : UsartRx) (chr : Nat) (rxsynh : Bool)
    (h1 : s.rx_enabled = true) (h2 : s.reg_csr &&& CSR_RXRDY ≠ 0) :
    (xfer_chr_receive s chr rxsynh).reg_csr &&& CSR_OVRE ≠ 0 := by
  unfold xfer_chr_receive
  rw [if_pos ⟨h2, by rw [h1]⟩]
  rw [show CSR_OVRE = 2 ^ 5 from rfl, and_two_pow_ne_zero]
  simp only [Nat.testBit_or, Bool.or_eq_true]
  exact Or.inl (Or.inr (by decide))

/-- USART state for the C7 witness: receiver enabled, RXRDY set. -/
def usartC7State : UsartRx :=
  { rx_enabled := true, rx_dma_enabled := false, reg_csr := 1
    reg_rhr := 0x41, rcvbuf := [], pdc_rpr := 0, pdc_rcr := 0
    pdc_rnpr := 0, pdc_rncr := 0, memlog := [] }

/-- Witness for C7: a concrete overrun. -/
theorem usart_overrun_on_receive_witness :
    usartC7State.rx_enabled = true ∧
    usartC7State.reg_csr &&& CSR_RXRDY ≠ 0 ∧
    (xfer_chr_receive usartC7State 0x42 false).reg_csr &&& CSR_OVRE ≠ 0 :=
  ⟨by decide, by decide,
   usart_overrun_on_receive usartC7State 0x42 false (by decide) (by decide)⟩

/-! ### Byte conservation on the USART receive path (C8)

`memBytes` is the flat list of all bytes DMA-ed into guest memory;
`usart_undelivered` is the queue of bytes received but not yet read or
DMA-ed (the byte latched in RHR while RXRDY is set, then the receive
buffer).  `memBytes s ++ usart_undelivered s` is the full delivery
stream; a `DATA_IN` frame must extend it by exactly its payload. -/

/-- All bytes DMA-ed into memory, in order. -/
def memBytes (s : UsartRx) : List Nat :=
  (s.memlog.map Prod.snd).flatten

/-- Bytes received but not yet consumed from the device. -/
def usart_undelivered (s : UsartRx) : List Nat :=
  (if s.reg_csr &&& CSR_RXRDY ≠ 0 then [(s.reg_rhr &&& RHR_RXCHR) &&& 0xFF]
   else []) ++ s.rcvbuf

/-- Setting a flag with clear bit 0 does not change RXRDY. -/
theorem or_rxrdy_iff (x m : Nat) (hm : m.testBit 0 = false) :
    ((x ||| m) &&& CSR_RXRDY ≠ 0 ↔ x &&& CSR_RXRDY ≠ 0) := by
  rw [show CSR_RXRDY = 2 ^ 0 from rfl, and_two_pow_ne_zero,
    and_two_pow_ne_zero, Nat.testBit_or, hm]
  simp

/-- Setting RXRDY sets RXRDY. -/
theorem or_rxrdy_set (x : Nat) : (x ||| CSR_RXRDY) &&& CSR_RXRDY ≠ 0 := by
  rw [show CSR_RXRDY = 2 ^ 0 from rfl, and_two_pow_ne_zero, Nat.testBit_or,
    Nat.testBit_two_pow_self]
  simp

/-- Clearing RXRDY clears RXRDY. -/
theorem and_not_rxrdy_clear (x : Nat) :
    ¬ ((x &&& not32 CSR_RXRDY) &&& CSR_RXRDY ≠ 0) := by
  rw [show CSR_RXRDY = 2 ^ 0 from rfl, and_two_pow_ne_zero,
    testBit_and_not32_self _ (by omega)]
  simp

/-- A byte below 256 survives the RHR masking round-trip. -/
theorem byte_mask_roundtrip (b : Nat) (h : b < 256) :
    ((b &&& RHR_RXCHR) &&& RHR_RXCHR) &&& 0xFF = b := by
  have h1 : b &&& RHR_RXCHR = b := by
    rw [show RHR_RXCHR = 2 ^ 9 - 1 from rfl, Nat.and_pow_two_sub_one_eq_mod,
      Nat.mod_eq_of_lt (by omega)]
  rw [h1, h1,
    show (0xFF : Nat) = 2 ^ 8 - 1 from rfl, Nat.and_pow_two_sub_one_eq_mod,
    Nat.mod_eq_of_lt (by omega)]

/-- `xfer_receiver_dma_updreg` does not touch the delivery stream, the
buffer or RXRDY. -/
theorem stream_updreg (s : UsartRx) :
    memBytes (xfer_receiver_dma_updreg s) = memBytes s ∧
    usart_undelivered (xfer_receiver_dma_updreg s) = usart_undelivered s ∧
    (xfer_receiver_dma_updreg s).rcvbuf = s.rcvbuf ∧
    (((xfer_receiver_dma_updreg s).reg_csr &&& CSR_RXRDY ≠ 0) ↔
      (s.reg_csr &&& CSR_RXRDY ≠ 0)) := by
  unfold xfer_receiver_dma_updreg
  by_cases h1 : s.pdc_rcr = 0 <;> by_cases h2 : s.pdc_rncr = 0 <;>
    simp [h1, h2, memBytes, usart_undelivered,
      or_rxrdy_iff _ CSR_ENDRX (by decide),
      or_rxrdy_iff _ CSR_RXBUFF (by decide)]

/-- Flushing RHR via DMA preserves the delivery stream and clears
RXRDY. -/
theorem stream_rhr (s : UsartRx) (h : s.reg_csr &&& CSR_RXRDY ≠ 0) :
    memBytes (xfer_receiver_dma_rhr s) ++
        usart_undelivered (xfer_receiver_dma_rhr s) =
      memBytes s ++ usart_undelivered s ∧
    (xfer_receiver_dma_rhr s).rcvbuf = s.rcvbuf ∧
    ¬ ((xfer_receiver_dma_rhr s).reg_csr &&& CSR_RXRDY ≠ 0) := by
  unfold xfer_receiver_dma_rhr
  refine ⟨?_, rfl, and_not_rxrdy_clear _⟩
  simp [memBytes, usart_undelivered, h, and_not_rxrdy_clear]

/-- DMA-ing buffered bytes preserves the delivery stream while RXRDY is
clear. -/
theorem stream_rcr (s : UsartRx) (h : ¬ (s.reg_csr &&& CSR_RXRDY ≠ 0)) :
    memBytes (xfer_receiver_dma_rcr s) ++
        usart_undelivered (xfer_receiver_dma_rcr s) =
      memBytes s ++ usart_undelivered s ∧
    (∀ b ∈ (xfer_receiver_dma_rcr s).rcvbuf, b ∈ s.rcvbuf) ∧
    (xfer_receiver_dma_rcr s).reg_csr = s.reg_csr := by
  unfold xfer_receiver_dma_rcr
  refine ⟨?_, ?_, rfl⟩
  · simp [memBytes, usart_undelivered, h]
  · intro b hb
    exact List.mem_of_mem_drop hb

/-- Reduction of `xfer_chr_receive` when RXRDY is clear. -/
theorem xfer_chr_receive_not_rxrdy (s : UsartRx) (chr : Nat)
    (h : ¬ (s.reg_csr &&& CSR_RXRDY ≠ 0)) :
    xfer_chr_receive s chr false =
      { s with reg_rhr := (chr &&& RHR_RXCHR) ||| 0
               reg_csr := s.reg_csr ||| CSR_RXRDY } := by
  unfold xfer_chr_receive
  rw [if_neg (by rintro ⟨hx, -⟩; exact h hx)]
  rfl

/-- Delivering the next buffered byte into RHR preserves the delivery
stream. -/
theorem stream_next (s : UsartRx) (hb : ∀ b ∈ s.rcvbuf, b < 256) :
    memBytes (xfer_receiver_next s) ++
        usart_undelivered (xfer_receiver_next s) =
      memBytes s ++ usart_undelivered s ∧
    (∀ b ∈ (xfer_receiver_next s).rcvbuf, b ∈ s.rcvbuf) := by
  unfold xfer_receiver_next
  by_cases hemp : s.rcvbuf.isEmpty
  · simp [hemp]
  · by_cases hrd : s.reg_csr &&& CSR_RXRDY ≠ 0
    · simp [hemp, hrd]
    · obtain ⟨b, rest, hcons⟩ : ∃ b rest, s.rcvbuf = b :: rest := by
        cases hc : s.rcvbuf with
        | nil => rw [hc] at hemp; simp at hemp
        | cons b rest => exact ⟨b, rest, rfl⟩
      have hblt : b < 256 := hb b (by rw [hcons]; exact List.mem_cons_self b rest)
      rw [if_neg (by simp [hemp]), if_neg hrd,
        xfer_chr_receive_not_rxrdy { s with rcvbuf := s.rcvbuf.drop 1 }
          (s.rcvbuf.headD 0) hrd]
      constructor
      · simp only [memBytes, usart_undelivered, hcons]
        rw [if_pos (or_rxrdy_set _), if_neg hrd]
        simp [byte_mask_roundtrip b hblt]
      · intro x hx
        simp only [hcons] at hx ⊢
        simp at hx
        simp [hx]

/-- Setting two flags with clear bit 0 does not touch the delivery
stream. -/
theorem stream_set_flags (s : UsartRx) (m1 m2 : Nat)
    (h1 : m1.testBit 0 = false) (h2 : m2.testBit 0 = false) :
    memBytes { s with reg_csr := (s.reg_csr ||| m1) ||| m2 } = memBytes s ∧
    usart_undelivered { s with reg_csr := (s.reg_csr ||| m1) ||| m2 } =
      usart_undelivered s := by
  refine ⟨rfl, ?_⟩
  unfold usart_undelivered
  simp only [or_rxrdy_iff _ m2 h2, or_rxrdy_iff _ m1 h1]

/-- Phase 3 of the DMA core preserves the delivery stream. -/
theorem stream_phase3 (s : UsartRx) (h : ¬ (s.reg_csr &&& CSR_RXRDY ≠ 0)) :
    memBytes (dma_core_phase3 s) ++ usart_undelivered (dma_core_phase3 s) =
      memBytes s ++ usart_undelivered s ∧
    (∀ b ∈ (dma_core_phase3 s).rcvbuf, b ∈ s.rcvbuf) := by
  unfold dma_core_phase3
  by_cases hc : s.pdc_rcr = 0 ∨ s.rcvbuf.isEmpty
  · rw [if_pos hc]
    exact ⟨rfl, fun b hbm => hbm⟩
  · rw [if_neg hc]
    obtain ⟨hS, hsub, _⟩ := stream_rcr s h
    by_cases hz : (xfer_receiver_dma_rcr s).pdc_rcr = 0
    · rw [if_pos hz]
      obtain ⟨hm, hu⟩ := stream_set_flags (xfer_receiver_dma_rcr s)
        CSR_ENDRX CSR_RXBUFF (by decide) (by decide)
      rw [hm, hu, hS]
      exact ⟨rfl, hsub⟩
    · rw [if_neg hz]
      exact ⟨hS, hsub⟩

/-- Phase 2 of the DMA core preserves the delivery stream. -/
theorem stream_phase2 (s : UsartRx) (h : ¬ (s.reg_csr &&& CSR_RXRDY ≠ 0)) :
    memBytes (dma_core_phase2 s) ++ usart_undelivered (dma_core_phase2 s) =
      memBytes s ++ usart_undelivered s ∧
    (∀ b ∈ (dma_core_phase2 s).rcvbuf, b ∈ s.rcvbuf) := by
  unfold dma_core_phase2
  by_cases hc : s.pdc_rcr = 0 ∨ s.rcvbuf.isEmpty
  · rw [if_pos hc]
    exact ⟨rfl, fun b hbm => hbm⟩
  · rw [if_neg hc]
    obtain ⟨hS1, hsub1, hcsr1⟩ := stream_rcr s h
    obtain ⟨hm2, hu2, hb2, hrd2⟩ :=
      stream_updreg (xfer_receiver_dma_rcr s)
    have h2 : ¬ ((xfer_receiver_dma_updreg (xfer_receiver_dma_rcr s)).reg_csr
        &&& CSR_RXRDY ≠ 0) := by
      rw [hrd2, hcsr1]
      exact h
    obtain ⟨hS3, hsub3⟩ :=
      stream_phase3 (xfer_receiver_dma_updreg (xfer_receiver_dma_rcr s)) h2
    constructor
    · rw [hS3, hm2, hu2, hS1]
    · intro b hbmem
      exact hsub1 b (hb2 ▸ hsub3 b hbmem)

/-- The whole `__xfer_receiver_dma` preserves the delivery stream. -/
theorem stream_core (s : UsartRx) :
    memBytes (xfer_receiver_dma_core s) ++
        usart_undelivered (xfer_receiver_dma_core s) =
      memBytes s ++ usart_undelivered s ∧
    (∀ b ∈ (xfer_receiver_dma_core s).rcvbuf, b ∈ s.rcvbuf) := by
  unfold xfer_receiver_dma_core
  by_cases h0 : s.reg_csr &&& CSR_RXRDY ≠ 0
  · rw [if_pos h0]
    obtain ⟨hS1, hbuf1, hclear1⟩ := stream_rhr s h0
    obtain ⟨hm2, hu2, hb2, hrd2⟩ :=
      stream_updreg (xfer_receiver_dma_rhr s)
    have h2 : ¬ ((xfer_receiver_dma_updreg (xfer_receiver_dma_rhr s)).reg_csr
        &&& CSR_RXRDY ≠ 0) := fun hx => hclear1 (hrd2.mp hx)
    obtain ⟨hS3, hsub3⟩ :=
      stream_phase2 (xfer_receiver_dma_updreg (xfer_receiver_dma_rhr s)) h2
    constructor
    · rw [hS3, hm2, hu2, hS1]
    · intro b hbmem
      have := hsub3 b hbmem
      rw [hb2, hbuf1] at this
      exact this
  · rw [if_neg h0]
    exact stream_phase2 s h0

/-- The post-core tail of `xfer_receiver_dma` preserves the delivery
stream. -/
theorem stream_after_core (s : UsartRx) (hb : ∀ b ∈ s.rcvbuf, b < 256) :
    memBytes (dma_after_core s) ++ usart_undelivered (dma_after_core s) =
      memBytes s ++ usart_undelivered s ∧
    (∀ b ∈ (dma_after_core s).rcvbuf, b ∈ s.rcvbuf) := by
  unfold dma_after_core
  by_cases h1 : s.pdc_rcr = 0
  · rw [if_pos h1]
    by_cases h2 : s.pdc_rncr = 0
    · rw [if_pos h2]
      exact stream_next { s with rx_dma_enabled := false } hb
    · rw [if_neg h2]
      exact ⟨rfl, fun b hbm => hbm⟩
  · rw [if_neg h1]
    exact ⟨rfl, fun b hbm => hbm⟩

/-- `xfer_receiver_dma` preserves the delivery stream. -/
theorem stream_dma (s : UsartRx) (hb : ∀ b ∈ s.rcvbuf, b < 256) :
    memBytes (xfer_receiver_dma s) ++
        usart_undelivered (xfer_receiver_dma s) =
      memBytes s ++ usart_undelivered s ∧
    (∀ b ∈ (xfer_receiver_dma s).rcvbuf, b ∈ s.rcvbuf) := by
  unfold xfer_receiver_dma
  obtain ⟨hS1, hsub1⟩ := stream_core s
  obtain ⟨hS2, hsub2⟩ := stream_after_core (xfer_receiver_dma_core s)
    (fun b hbm => hb b (hsub1 b hbm))
  exact ⟨by rw [hS2, hS1], fun b hbm => hsub1 b (hsub2 b hbm)⟩

/-- C8: handling an inbound `DATA`/`DATA_IN` frame with the receiver
disabled replies ENXIO and leaves the device state (in particular the
RX buffer) untouched; with the receiver enabled it replies 0 and
appends exactly the payload to the channel's receive stream (memory
DMA log plus RHR plus RX buffer) — no byte is lost, duplicated or
reordered. -/
theorem usart_iox_data_in (s : UsartRx) (payload : List Nat)
    (hbuf : ∀ b ∈ s.rcvbuf, b < 256) (hpl : ∀ b ∈ payload, b < 256) :
    (s.rx_enabled = false → iox_receive_data s payload = (s, ENXIO)) ∧
    (s.rx_enabled = true →
      (iox_receive_data s payload).2 = 0 ∧
      memBytes (iox_receive_data s payload).1 ++
          usart_undelivered (iox_receive_data s payload).1 =
        (memBytes s ++ usart_undelivered s) ++ payload) := by
  constructor
  · intro h
    unfold iox_receive_data
    rw [if_pos (by simp [h])]
  · intro h
    unfold iox_receive_data
    rw [if_neg (by simp [h])]
    have hS1 : memBytes { s with rcvbuf := s.rcvbuf ++ payload } ++
        usart_undelivered { s with rcvbuf := s.rcvbuf ++ payload } =
        (memBytes s ++ usart_undelivered s) ++ payload := by
      simp [memBytes, usart_undelivered, List.append_assoc]
    have hb1 : ∀ b ∈ ({ s with rcvbuf := s.rcvbuf ++ payload } : UsartRx).rcvbuf,
        b < 256 := by
      intro b hbm
      rcases List.mem_append.mp hbm with hx | hx
      · exact hbuf b hx
      · exact hpl b hx
    by_cases hip : ¬ s.rcvbuf.isEmpty
    · rw [if_pos hip]
      exact ⟨rfl, hS1⟩
    · rw [if_neg hip]
      by_cases hdma : s.rx_dma_enabled
      · rw [if_pos hdma]
        refine ⟨rfl, ?_⟩
        rw [(stream_dma _ hb1).1, hS1]
      · rw [if_neg hdma]
        refine ⟨rfl, ?_⟩
        rw [(stream_next _ hb1).1, hS1]

/-- USART state for the C8 witness: receiver enabled, everything
idle. -/
def usartC8State : UsartRx :=
  { rx_enabled := true, rx_dma_enabled := false, reg_csr := 0
    reg_rhr := 0, rcvbuf := [], pdc_rpr := 0, pdc_rcr := 0
    pdc_rnpr := 0, pdc_rncr := 0, memlog := [] }

/-- `usartC8State` with the receiver disabled. -/
def usartC8StateOff : UsartRx := { usartC8State with rx_enabled := false }

/-- Witness for C8: a concrete frame is appended with reply 0 when the
receiver is enabled, and rejected with ENXIO leaving the state
untouched when it is disabled. -/
theorem usart_iox_data_in_witness :
    ((iox_receive_data usartC8State [0x61, 0x62]).2 = 0 ∧
      memBytes (iox_receive_data usartC8State [0x61, 0x62]).1 ++
          usart_undelivered (iox_receive_data usartC8State [0x61, 0x62]).1 =
        (memBytes usartC8State ++ usart_undelivered usartC8State) ++
          [0x61, 0x62]) ∧
    iox_receive_data usartC8StateOff [0x61, 0x62] = (usartC8StateOff, ENXIO) :=
  ⟨(usart_iox_data_in usartC8State [0x61, 0x62] (by decide) (by decide)).2 rfl,
   (usart_iox_data_in usartC8StateOff [0x61, 0x62] (by decide)
     (by decide)).1 rfl⟩

/-! ## IOX transfer server (`ioxfer-server.h`, `ioxfer-server.c`) -/

/-- 8-bit truncation (`uint8_t` assignment). -/
def mask8 (x : Nat) : Nat := x &&& 0xFF

/-- `struct iox_data_frame`. -/
structure IoxFrame where
  seq : Nat
  cat : Nat
  id : Nat
  len : Nat
  payload : List Nat
  deriving Repr, DecidableEq, Inhabited

/-- `iox_next_seqid` (server present): increment the `uint8_t`
sequence counter and force bit 7; the stored counter equals the
returned value. -/
def iox_next_seqid (seq : Nat) : Nat × Nat :=
  let v := mask8 ((seq + 1) ||| 128)
  (v, v)

/-- `iox_send_u32`: build the 4-byte little-endian status frame (the
header fields are `uint8_t`). -/
def iox_send_u32 (seq cat id value : Nat) : IoxFrame :=
  { seq := mask8 seq, cat := mask8 cat, id := mask8 id, len := 4
    payload := [value &&& 0xFF, (value >>> 8) &&& 0xFF,
                (value >>> 16) &&& 0xFF, (value >>> 24) &&& 0xFF] }

/-- `iox_send_u32_resp`: reply with the request's header fields. -/
def iox_send_u32_resp (req : IoxFrame) (value : Nat) : IoxFrame :=
  iox_send_u32 req.seq req.cat req.id value

/-- `iox_send_u32_new`: a server-initiated status frame; returns the
advanced counter and the frame. -/
def iox_send_u32_new (srvSeq cat id value : Nat) : Nat × IoxFrame :=
  ((iox_next_seqid srvSeq).1,
   iox_send_u32 (iox_next_seqid srvSeq).2 cat id value)

/-- `iox_send_data` (single frame). -/
def iox_send_data (seq cat id : Nat) (data : List Nat) : IoxFrame :=
  { seq := mask8 seq, cat := mask8 cat, id := mask8 id
    len := mask8 data.length, payload := data }

/-- `iox_send_data_new`: a server-initiated data frame. -/
def iox_send_data_new (srvSeq cat id : Nat) (data : List Nat) :
    Nat × IoxFrame :=
  ((iox_next_seqid srvSeq).1,
   iox_send_data (iox_next_seqid srvSeq).2 cat id data)

/-- Fresh sequence ids have bit 7 set. -/
theorem iox_next_seqid_bit7 (seq : Nat) :
    Nat.testBit (iox_next_seqid seq).2 7 = true := by
  unfold iox_next_seqid mask8
  rw [show (0xFF : Nat) = 2 ^ 8 - 1 from rfl, Nat.testBit_and,
    Nat.testBit_or, Nat.testBit_two_pow_sub_one,
    show (128 : Nat) = 2 ^ 7 from rfl, Nat.testBit_two_pow_self]
  simp

/-- Fresh sequence ids auto-increment in the low seven bits. -/
theorem iox_next_seqid_increments (seq : Nat) :
    (iox_next_seqid seq).2 &&& 0x7F = (seq + 1) &&& 0x7F := by
  unfold iox_next_seqid mask8
  apply Nat.eq_of_testBit_eq
  intro i
  rw [show (0xFF : Nat) = 2 ^ 8 - 1 from rfl,
    show (0x7F : Nat) = 2 ^ 7 - 1 from rfl,
    show (128 : Nat) = 2 ^ 7 from rfl]
  simp only [Nat.testBit_and, Nat.testBit_or, Nat.testBit_two_pow_sub_one]
  by_cases h7 : i < 7
  · rw [Nat.testBit_two_pow_of_ne (by omega)]
    simp [h7, show i < 8 by omega]
  · by_cases h8 : i < 8
    · have hi : i = 7 := by omega
      subst hi
      simp [Nat.testBit_two_pow_self]
    · simp [h7, h8]

/-- C9: every server-initiated frame (`*_new` send helpers) carries a
freshly auto-incremented sequence id with bit 7 set, which also becomes
the stored counter; every response (`iox_send_u32_resp`) carries the
request's sequence id unchanged. -/
theorem iox_seq_direction :
    (∀ srvSeq : Nat,
      Nat.testBit (iox_send_u32_new srvSeq 1 1 0).2.seq 7 = true ∧
      (iox_send_u32_new srvSeq 1 1 0).2.seq = (iox_next_seqid srvSeq).2 ∧
      (iox_send_u32_new srvSeq 1 1 0).1 = (iox_next_seqid srvSeq).2) ∧
    (∀ srvSeq cat id : Nat, ∀ data : List Nat,
      Nat.testBit (iox_send_data_new srvSeq cat id data).2.seq 7 = true ∧
      (iox_send_data_new srvSeq cat id data).2.seq =
        (iox_next_seqid srvSeq).2) ∧
    (∀ srvSeq : Nat,
      (iox_next_seqid srvSeq).2 &&& 0x7F = (srvSeq + 1) &&& 0x7F ∧
      (iox_next_seqid srvSeq).1 = (iox_next_seqid srvSeq).2) ∧
    (∀ req : IoxFrame, ∀ value : Nat, req.seq < 256 →
      (iox_send_u32_resp req value).seq = req.seq) := by
  have hmask : ∀ x : Nat, mask8 (mask8 x) = mask8 x := by
    intro x
    unfold mask8
    rw [Nat.and_assoc]
    norm_num
  have hseq8 : ∀ x : Nat, mask8 ((iox_next_seqid x).2) = (iox_next_seqid x).2 :=
    fun x => hmask _
  refine ⟨?_, ?_, ?_, ?_⟩
  · intro srvSeq
    refine ⟨?_, hseq8 srvSeq, rfl⟩
    show Nat.testBit (mask8 (iox_next_seqid srvSeq).2) 7 = true
    rw [hseq8 srvSeq]
    exact iox_next_seqid_bit7 srvSeq
  · intro srvSeq cat id data
    refine ⟨?_, hseq8 srvSeq⟩
    show Nat.testBit (mask8 (iox_next_seqid srvSeq).2) 7 = true
    rw [hseq8 srvSeq]
    exact iox_next_seqid_bit7 srvSeq
  · intro srvSeq
    exact ⟨iox_next_seqid_increments srvSeq, rfl⟩
  · intro req value h
    show mask8 req.seq = req.seq
    unfold mask8
    rw [show (0xFF : Nat) = 2 ^ 8 - 1 from rfl,
      Nat.and_pow_two_sub_one_eq_mod, Nat.mod_eq_of_lt (by omega)]

/-- Witness for C9: a concrete fresh id and a concrete response. -/
theorem iox_seq_direction_witness :
    ((5 : Nat) < 256 ∧
      (iox_send_u32_resp { seq := 5, cat := 1, id := 1, len := 0
                           payload := [] } 0).seq = 5) ∧
    Nat.testBit (iox_send_u32_new 0 1 1 0).2.seq 7 = true :=
  ⟨⟨by omega, (iox_seq_direction).2.2.2
      { seq := 5, cat := 1, id := 1, len := 0, payload := [] } 0 (by decide)⟩,
   ((iox_seq_direction).1 0).1⟩

/-! ### `client_receive` framing (C3)

The socket is modelled as a queue of bursts: `qio_channel_read` returns
up to the requested count from the current burst and blocks
(`G_SOURCE_CONTINUE`) when no data is left.  A burst boundary inside a
frame models a partial read. -/

/-- Server framing state: the fixed 260-byte accumulation buffer, the
`buffer_used` cursor, and the frames dispatched to the handler. -/
structure IoxSrv where
  buffer : List Nat
  buffer_used : Nat
  handler_log : List IoxFrame
  deriving Repr, DecidableEq, Inhabited

/-- `qio_channel_read`: `none` models `QIO_CHANNEL_ERR_BLOCK`. -/
def qread (n : Nat) (ch : List (List Nat)) :
    Option (List Nat) × List (List Nat) :=
  match ch with
  | [] => (none, [])
  | b :: rest =>
      let k := min n b.length
      (some (b.take k), if k < b.length then b.drop k :: rest else rest)

/-- Write `data` into `buf` at byte offset `pos`. -/
def writeAt (buf : List Nat) (pos : Nat) (data : List Nat) : List Nat :=
  buf.take pos ++ data ++ buf.drop (pos + data.length)

/-- The frame handed to the handler: header bytes 0..3 and `len`
payload bytes starting at offset 4. -/
def parseFrame (buf : List Nat) : IoxFrame :=
  { seq := buf.getD 0 0, cat := buf.getD 1 0, id := buf.getD 2 0
    len := buf.getD 3 0
    payload := (buf.drop 4).take (buf.getD 3 0) }

/-- One iteration of the `while (true)` loop of `client_receive`:
`Sum.inl` is an early `return` (no more data), `Sum.inr` falls through
to the next iteration.  The header read writes at the buffer START and
advances `buffer_used` by the full header size regardless of how many
bytes were actually read, exactly as the source does; the payload read
writes at `buffer + buffer_used` and advances by `nread`. -/
def cr_step (srv : IoxSrv) (ch : List (List Nat)) :
    Sum (IoxSrv × List (List Nat)) (IoxSrv × List (List Nat)) :=
  let s1 : Sum (IoxSrv × List (List Nat)) (IoxSrv × List (List Nat)) :=
    if srv.buffer_used < 4 then
      match qread (4 - srv.buffer_used) ch with
      | (Option.none, ch') => Sum.inl (srv, ch')
      | (some data, ch') =>
          if data.isEmpty then Sum.inl (srv, ch')
          else Sum.inr ({ srv with buffer := writeAt srv.buffer 0 data
                                   buffer_used := srv.buffer_used + 4 }, ch')
    else Sum.inr (srv, ch)
  match s1 with
  | Sum.inl r => Sum.inl r
  | Sum.inr (srv, ch) =>
    if srv.buffer_used ≥ 4 then
      let len := 4 + srv.buffer.getD 3 0
      let s2 : Sum (IoxSrv × List (List Nat)) (IoxSrv × List (List Nat)) :=
        if srv.buffer_used < len then
          match qread (len - srv.buffer_used) ch with
          | (Option.none, ch') => Sum.inl (srv, ch')
          | (some data, ch') =>
              if data.isEmpty then Sum.inl (srv, ch')
              else Sum.inr ({ srv with
                  buffer := writeAt srv.buffer srv.buffer_used data
                  buffer_used := srv.buffer_used + data.length }, ch')
        else Sum.inr (srv, ch)
      match s2 with
      | Sum.inl r => Sum.inl r
      | Sum.inr (srv, ch) =>
          if srv.buffer_used = 4 + srv.buffer.getD 3 0 then
            Sum.inr ({ srv with
                handler_log := srv.handler_log ++ [parseFrame srv.buffer]
                buffer_used := 0 }, ch)
          else Sum.inr (srv, ch)
    else Sum.inr (srv, ch)

/-- `client_receive`: iterate `cr_step` until it returns (fuel bounds
the loop; every returned configuration is reached with enough fuel). -/
def client_receive (fuel : Nat) (srv : IoxSrv) (ch : List (List Nat)) :
    IoxSrv × List (List Nat) :=
  match fuel with
  | 0 => (srv, ch)
  | fuel + 1 =>
      match cr_step srv ch with
      | Sum.inl r => r
      | Sum.inr (srv, ch) => client_receive fuel srv ch

/-- Fresh server state. -/
def ioxSrv0 : IoxSrv :=
  { buffer := List.replicate 260 0, buffer_used := 0, handler_log := [] }

/-- C3 evaluation: delivering the 6-byte frame
`seq=0 cat=1 id=1 len=2 payload=[0xAA,0xBB]` in one burst dispatches
exactly that frame, but delivering it split as 2 + 4 bytes (a partial
header read) dispatches a garbage frame `cat=1 id=0 len=0` instead:
the header path adds the full header size to `buffer_used` after a
2-byte read and restarts at the buffer start, so the remaining header
bytes are never placed and the frame boundaries diverge from the
single-shot read. -/
theorem iox_partial_header_read_code_bug :
    (client_receive 16 ioxSrv0 [[0, 1, 1, 2, 0xAA, 0xBB]]).1.handler_log =
      [{ seq := 0, cat := 1, id := 1, len := 2, payload := [0xAA, 0xBB] }] ∧
    (client_receive 16 ioxSrv0 [[0, 1], [1, 2, 0xAA, 0xBB]]).1.handler_log =
      [{ seq := 0, cat := 1, id := 0, len := 0, payload := [] }] ∧
    ({ seq := 0, cat := 1, id := 0, len := 0, payload := ([] : List Nat) }
        : IoxFrame) ≠
      { seq := 0, cat := 1, id := 1, len := 2, payload := [0xAA, 0xBB] } := by
  refine ⟨by decide, by decide, by decide⟩

end IobcSpec
